import Mathlib

/-!
# The ADC measurement core of the soldering pen board (`src/board/adc.hpp`)

A shallow embedding of the class `board::Adc`: the measurement state machine
(`measure_idle_start`, `measure_heat_start`, `process`), the DMA batch start
(`_start_dma_measure`) and the integer calibration routines (`_calculate_*`).

Conventions of the embedding.

* A `uint16_t` is a `Fin 65536`.
* An `int` is an `Int` that every arithmetic step reduces into the signed 32-bit
  range by two's-complement wrap-around (`wrapInt32`), the behaviour of the
  32-bit target. `/` on `int` truncates toward zero (`Int.tdiv`).
* A division by zero traps. The routines are first given as total functions
  (`idiv` yields 0 for a zero divisor); every statement about a reading they
  compute assumes a non-zero divisor. `Adc.Checked` gives the same routines
  with the trap: no value when a divisor is 0. Whether `process` returns is
  stated on `Adc.Checked.process`.
* The object's members and the peripheral registers it touches are the fields of
  one record `Adc`; a member function is a function from `Adc` to `Adc`.
  Hardware activity (the DMA engine writing a raw buffer, raising the
  transfer-complete flag) is a separate step on the same record.
* The register declarations (`io/reg/stm32/f0/*.hpp`) are outside the
  translated source; the few registers used are modelled below.
-/

namespace board

/-! ## Machine integers -/

/-- An unsigned 16-bit code (`uint16_t`). -/
abbrev U16 := Fin 65536

/-- The range of a signed 32-bit `int`. -/
@[reducible]
def InInt32 (x : Int) : Prop := -2147483648 ≤ x ∧ x ≤ 2147483647

/-- Two's-complement reduction of an integer into the signed 32-bit range: a
value in the range is kept, any other is reduced modulo `2 ^ 32`. -/
def wrapInt32 (x : Int) : Int :=
  if InInt32 x then x else (x + 2147483648) % 4294967296 - 2147483648

/-- The `int` product `a * b`. -/
def imul (a b : Int) : Int := wrapInt32 (a * b)

/-- The `int` quotient `a / b`, truncating toward zero, made total: 0 when the
divisor is 0, where the machine division traps (see `Adc.Checked.idiv`). -/
def idiv (a b : Int) : Int := wrapInt32 (Int.tdiv a b)

/-- The `int` difference `a - b`. -/
def isub (a b : Int) : Int := wrapInt32 (a - b)

/-- The `int` sum `a + b`. -/
def iadd (a b : Int) : Int := wrapInt32 (a + b)

/-- The `int` shift `a << n`. -/
def ishl (a : Int) (n : Nat) : Int := wrapInt32 (a * 2 ^ n)

/-! ## Peripheral registers -/

/-- Modelled from the spec: the three read-only factory calibration words in
system memory (`io::SYSMEM`, declared in `io/reg/stm32/f0/sysmem.hpp`): the
reference-voltage code and the two temperature codes, 16-bit words. -/
structure IoSysmem where
  VREFINT_CAL : U16
  TEMP30_CAL : U16
  TEMP110_CAL : U16
  deriving DecidableEq, Repr

/-- Modelled from the spec: the transfer size of a DMA channel
(`io::Dma::Channel::Ccr::Size`, declared in `io/reg/stm32/f0/dma.hpp`); the
all-zero control word has `SIZE_8`. -/
inductive Size where
  | SIZE_8
  | SIZE_16
  | SIZE_32
  deriving DecidableEq, Repr

/-- Modelled from the spec: the priority of a DMA channel
(`io::Dma::Channel::Ccr::Pl`); the all-zero control word has `LOW`. -/
inductive Pl where
  | LOW
  | MEDIUM
  | HIGH
  | VERY_HIGH
  deriving DecidableEq, Repr

/-- Modelled from the spec: the control flags of a DMA channel
(`io::Dma::Channel::Ccr`): enable, direction (`false` is peripheral to memory),
circular mode (`false` is one-shot), memory increment, the two transfer sizes
and the priority. -/
structure Ccr where
  EN : Bool
  DIR : Bool
  CIRC : Bool
  MINC : Bool
  PSIZE : Size
  MSIZE : Size
  PL : Pl
  deriving DecidableEq, Repr

/-- The control word `Ccr(0x00000000)`. -/
def Ccr.zero : Ccr :=
  { EN := false, DIR := false, CIRC := false, MINC := false,
    PSIZE := Size.SIZE_8, MSIZE := Size.SIZE_8, PL := Pl.LOW }

/-- The addresses the DMA channel is pointed at. -/
inductive Addr where
  | null
  | adc_dr
  | raw_measured_idle
  | raw_measured_heat
  deriving DecidableEq, Repr

/-- Modelled from the spec: the registers of one DMA channel
(`io::Dma::Channel`): control flags, memory address, peripheral address and
transfer count. -/
structure IoDmaChannel where
  CCR : Ccr
  CMAR : Addr
  CPAR : Addr
  CNDTR : Nat
  deriving DecidableEq, Repr

/-- Modelled from the spec: the DMA controller (`io::Dma`) as far as the ADC
channel `DMA_CH_ADC` goes: its transfer-complete flag (read as
`ISR.TCIF(DMA_CH_ADC)`) and its channel registers (`CHANNEL(DMA_CH_ADC)`). -/
structure IoDma where
  TCIF : Bool
  CHANNEL : IoDmaChannel
  deriving DecidableEq, Repr

/-- Modelled from the spec: `IFCR.clear_flags(DMA_CH_ADC)`, the clear half of the
transfer-complete status/clear-flag pair: the flag of the channel reads clear
afterwards. -/
def IoDma.clear_flags (d : IoDma) : IoDma := { d with TCIF := false }

/-- Modelled from the spec: the ADC registers (`io::Adc`) the measurement uses:
the channel-select mask `CHSELR` (bit `n` of the value is `CHSELn`) and the
conversion-start bit `CR.ADSTART`. -/
structure IoAdc where
  CHSELR : Nat
  ADSTART : Bool
  deriving DecidableEq, Repr

/-- The assignment `chselr.b.CHSELn = true` on a channel-select word. -/
def Chselr.set (r : Nat) (n : Nat) : Nat := r ||| (1 <<< n)

/-! ## The class `Adc` -/

/-- The `enum class State`. -/
inductive State where
  | DONE
  | MEASURE_IDLE
  | MEASURE_HEAT
  deriving DecidableEq, Repr

/-- The raw buffer of an idle cycle, in scan order. -/
structure RawMeasuredIdle where
  pen_current : U16
  pen_temperature : U16
  supply_voltage : U16
  cpu_temperature : U16
  cpu_reference : U16
  deriving DecidableEq, Repr

/-- The raw buffer of a heat cycle, in scan order. -/
structure RawMeasuredHeat where
  pen_current : U16
  supply_voltage : U16
  cpu_reference : U16
  deriving DecidableEq, Repr

/-- The constant `RAW_MEASURE_IDLE_ITEMS`: `sizeof(RawMeasuredIdle) / sizeof(uint16_t)`. -/
def RAW_MEASURE_IDLE_ITEMS : Nat := (5 * 2) / 2

/-- The constant `RAW_MEASURE_HEAT_ITEMS`: `sizeof(RawMeasuredHeat) / sizeof(uint16_t)`. -/
def RAW_MEASURE_HEAT_ITEMS : Nat := (3 * 2) / 2

/-- The constant `MAX_VALUE`. -/
def MAX_VALUE : Int := 0xfff0

/-- The members of `Adc` together with the registers it drives. -/
structure Adc where
  _measure_state : State
  r_adc : IoAdc
  r_dma : IoDma
  _raw_measured_idle : RawMeasuredIdle
  _raw_measured_heat : RawMeasuredHeat
  _actual_cpu_voltage_mv : Int
  _actual_supply_voltage_mv : Int
  _actual_cpu_temperature_mc : Int
  _actual_pen_temperature_mc : Int
  _actual_pen_current_ma : Int
  _pen_sensor_ok : Bool
  deriving DecidableEq, Repr

namespace Adc

/-- The member `_start_dma_measure`: clear the channel's flags, program the
channel and start the ADC. -/
def _start_dma_measure (s : Adc) (raw_measured : Addr) (count : Nat) : Adc :=
  let dma := s.r_dma.clear_flags
  let ch := dma.CHANNEL
  let ch := { ch with CCR := Ccr.zero }
  let ch := { ch with CMAR := raw_measured }
  let ch := { ch with CPAR := Addr.adc_dr }
  let ch := { ch with CNDTR := count }
  let dma_adc_ccr := Ccr.zero
  let dma_adc_ccr := { dma_adc_ccr with EN := true }
  let dma_adc_ccr := { dma_adc_ccr with MINC := true }
  let dma_adc_ccr := { dma_adc_ccr with PSIZE := Size.SIZE_16 }
  let dma_adc_ccr := { dma_adc_ccr with MSIZE := Size.SIZE_16 }
  let dma_adc_ccr := { dma_adc_ccr with PL := Pl.LOW }
  let ch := { ch with CCR := dma_adc_ccr }
  { s with r_dma := { dma with CHANNEL := ch },
           r_adc := { s.r_adc with ADSTART := true } }

/-- The member `_calculate_cpu_voltage`. -/
def _calculate_cpu_voltage (mem : IoSysmem) (s : Adc) (raw_cpu_reference : U16) : Adc :=
  let tmp := imul (ishl mem.VREFINT_CAL.val 4) 3300
  let tmp := idiv tmp raw_cpu_reference.val
  { s with _actual_cpu_voltage_mv := tmp }

/-- The member `_calculate_cpu_temperature`. -/
def _calculate_cpu_temperature (mem : IoSysmem) (s : Adc) (raw_cpu_temperature : U16) : Adc :=
  let tmp : Int := raw_cpu_temperature.val
  let tmp := imul tmp s._actual_cpu_voltage_mv
  let tmp := idiv tmp 3300
  let tmp := isub tmp (ishl mem.TEMP30_CAL.val 4)
  let tmp := imul tmp (110 * 1000 - 30 * 1000)
  let tmp := idiv tmp (isub (ishl mem.TEMP110_CAL.val 4) (ishl mem.TEMP30_CAL.val 4))
  let tmp := iadd tmp (30 * 1000)
  { s with _actual_cpu_temperature_mc := tmp }

/-- The member `_calculate_supply_voltage`. -/
def _calculate_supply_voltage (s : Adc) (raw_supply_voltage : U16) : Adc :=
  let tmp : Int := raw_supply_voltage.val
  let tmp := imul tmp s._actual_cpu_voltage_mv
  let tmp := idiv tmp MAX_VALUE
  let tmp := imul tmp (68 + 10)
  let tmp := idiv tmp 10
  { s with _actual_supply_voltage_mv := tmp }

/-- The member `_calculate_pen_temperature`. -/
def _calculate_pen_temperature (s : Adc) (raw_pen_temperature : U16) : Adc :=
  let tmp : Int := raw_pen_temperature.val
  let s := { s with _pen_sensor_ok := decide (tmp ≤ 65000) }
  if !s._pen_sensor_ok then
    { s with _actual_pen_temperature_mc := 0 }
  else
    let tmp := imul tmp s._actual_cpu_voltage_mv
    let tmp := idiv tmp MAX_VALUE
    let tmp := imul tmp (500 * 1000)
    let tmp := idiv tmp 3000
    { s with _actual_pen_temperature_mc := tmp }

/-- The member `_calculate_pen_current`. -/
def _calculate_pen_current (s : Adc) (raw_pen_current : U16) : Adc :=
  let tmp : Int := raw_pen_current.val
  let tmp := isub tmp (idiv MAX_VALUE 2)
  let tmp := imul tmp s._actual_cpu_voltage_mv
  let tmp := idiv tmp MAX_VALUE
  let tmp := imul tmp 1000
  let tmp := idiv tmp 110
  { s with _actual_pen_current_ma := tmp }

/-- The member `_calculate_idle`. -/
def _calculate_idle (mem : IoSysmem) (s : Adc) : Adc :=
  let s := _calculate_cpu_voltage mem s s._raw_measured_idle.cpu_reference
  let s := _calculate_cpu_temperature mem s s._raw_measured_idle.cpu_temperature
  let s := _calculate_supply_voltage s s._raw_measured_idle.supply_voltage
  let s := _calculate_pen_temperature s s._raw_measured_idle.pen_temperature
  _calculate_pen_current s s._raw_measured_idle.pen_current

/-- The member `_calculate_heat`. -/
def _calculate_heat (mem : IoSysmem) (s : Adc) : Adc :=
  let s := _calculate_cpu_voltage mem s s._raw_measured_heat.cpu_reference
  let s := _calculate_supply_voltage s s._raw_measured_heat.supply_voltage
  _calculate_pen_current s s._raw_measured_heat.pen_current

/-- The member `_process_measure`. -/
def _process_measure (s : Adc) : Adc :=
  if s.r_dma.TCIF then
    let s := { s with r_dma := s.r_dma.clear_flags }
    { s with _measure_state := State.DONE }
  else s

/-- The member `_process_idle`. -/
def _process_idle (mem : IoSysmem) (s : Adc) : Adc :=
  let s := _process_measure s
  if s._measure_state = State.DONE then _calculate_idle mem s else s

/-- The member `_process_heat`. -/
def _process_heat (mem : IoSysmem) (s : Adc) : Adc :=
  let s := _process_measure s
  if s._measure_state = State.DONE then _calculate_heat mem s else s

/-- The accessor `get_cpu_voltage_mv`. -/
abbrev get_cpu_voltage_mv (s : Adc) : Int := s._actual_cpu_voltage_mv

/-- The accessor `get_supply_voltage_mv`. -/
abbrev get_supply_voltage_mv (s : Adc) : Int := s._actual_supply_voltage_mv

/-- The accessor `get_cpu_temperature_mc`. -/
abbrev get_cpu_temperature_mc (s : Adc) : Int := s._actual_cpu_temperature_mc

/-- The accessor `get_pen_temperature_mc`. -/
abbrev get_pen_temperature_mc (s : Adc) : Int := s._actual_pen_temperature_mc

/-- The accessor `get_pen_current_ma`. -/
abbrev get_pen_current_ma (s : Adc) : Int := s._actual_pen_current_ma

/-- The accessor `is_pen_sensor_ok`. -/
abbrev is_pen_sensor_ok (s : Adc) : Bool := s._pen_sensor_ok

/-- The member `measure_idle_start`. -/
def measure_idle_start (s : Adc) : Adc :=
  let s := { s with _measure_state := State.MEASURE_IDLE }
  let chselr : Nat := 0x00000000
  let chselr := Chselr.set chselr 0
  let chselr := Chselr.set chselr 1
  let chselr := Chselr.set chselr 3
  let chselr := Chselr.set chselr 16
  let chselr := Chselr.set chselr 17
  let s := { s with r_adc := { s.r_adc with CHSELR := chselr } }
  _start_dma_measure s Addr.raw_measured_idle RAW_MEASURE_IDLE_ITEMS

/-- The member `measure_heat_start`. -/
def measure_heat_start (s : Adc) : Adc :=
  let s := { s with _measure_state := State.MEASURE_HEAT }
  let chselr : Nat := 0x00000000
  let chselr := Chselr.set chselr 0
  let chselr := Chselr.set chselr 3
  let chselr := Chselr.set chselr 17
  let s := { s with r_adc := { s.r_adc with CHSELR := chselr } }
  _start_dma_measure s Addr.raw_measured_heat RAW_MEASURE_HEAT_ITEMS

/-- The member `process`: the state after the call and the value returned. -/
def process (mem : IoSysmem) (s : Adc) : State × Adc :=
  let s :=
    match s._measure_state with
    | State.MEASURE_IDLE => _process_idle mem s
    | State.MEASURE_HEAT => _process_heat mem s
    | State.DONE => s
  (s._measure_state, s)

/-- The six readings the accessors return. -/
abbrev readings (s : Adc) : Int × Int × Int × Int × Int × Bool :=
  (get_cpu_voltage_mv s, get_supply_voltage_mv s, get_cpu_temperature_mc s,
   get_pen_temperature_mc s, get_pen_current_ma s, is_pen_sensor_ok s)

/-! ### Hardware activity and runs -/

/-- What the hardware does behind the program's back: the DMA engine stores
codes into a raw buffer, or raises the transfer-complete flag of the channel. -/
inductive HwEvent where
  | write_idle (raw : RawMeasuredIdle)
  | write_heat (raw : RawMeasuredHeat)
  | transfer_complete
  deriving DecidableEq, Repr

/-- The effect of one hardware event. -/
def hw_step (s : Adc) : HwEvent → Adc
  | HwEvent.write_idle raw => { s with _raw_measured_idle := raw }
  | HwEvent.write_heat raw => { s with _raw_measured_heat := raw }
  | HwEvent.transfer_complete => { s with r_dma := { s.r_dma with TCIF := true } }

/-- The effect of a sequence of hardware events. -/
def hw_run (s : Adc) (evs : List HwEvent) : Adc := evs.foldl hw_step s

/-- The all-zero register values and members of the object before `init_hw`:
state `DONE`, every reading `0`, `_pen_sensor_ok` false. -/
def init : Adc :=
  { _measure_state := State.DONE
    r_adc := { CHSELR := 0, ADSTART := false }
    r_dma := { TCIF := false,
               CHANNEL := { CCR := Ccr.zero, CMAR := Addr.null, CPAR := Addr.null, CNDTR := 0 } }
    _raw_measured_idle := ⟨0, 0, 0, 0, 0⟩
    _raw_measured_heat := ⟨0, 0, 0⟩
    _actual_cpu_voltage_mv := 0
    _actual_supply_voltage_mv := 0
    _actual_cpu_temperature_mc := 0
    _actual_pen_temperature_mc := 0
    _actual_pen_current_ma := 0
    _pen_sensor_ok := false }

/-- What can happen to the object: a call of one of its three public
operations, or a hardware event. -/
inductive Op where
  | measure_idle_start
  | measure_heat_start
  | process
  | hw (e : HwEvent)
  deriving DecidableEq, Repr

/-- The state after one operation. -/
def step (mem : IoSysmem) (s : Adc) : Op → Adc
  | Op.measure_idle_start => measure_idle_start s
  | Op.measure_heat_start => measure_heat_start s
  | Op.process => (process mem s).2
  | Op.hw e => hw_step s e

/-- The state after a sequence of operations. -/
def run (mem : IoSysmem) (s : Adc) (ops : List Op) : Adc := ops.foldl (step mem) s

/-- An operation during which no cycle can complete: `process`, or the DMA
engine storing codes into a raw buffer (the transfer-complete flag is not
raised). -/
def Op.in_flight : Op → Bool
  | Op.process => true
  | Op.hw (HwEvent.write_idle _) => true
  | Op.hw (HwEvent.write_heat _) => true
  | _ => false

/-! ### Divisions that can trap

The routines above are total: `idiv` gives 0 for a zero divisor. The two
divisions whose divisor is not a constant (by `raw_cpu_reference` and by
`(TEMP110_CAL << 4) - (TEMP30_CAL << 4)`) trap on the target when the divisor is
0, and the call of `process` does not return. The versions below have no value
in that case and agree with the total ones otherwise. -/

namespace Checked

/-- The `int` quotient `a / b` by a divisor that is not a constant: the division
traps when the divisor is 0 and there is no value. -/
def idiv (a b : Int) : Option Int := if b = 0 then none else some (board.idiv a b)

/-- The member `_calculate_cpu_voltage`, with the trap of `tmp /= raw_cpu_reference`. -/
def _calculate_cpu_voltage (mem : IoSysmem) (s : Adc) (raw_cpu_reference : U16) : Option Adc := do
  let tmp := imul (ishl mem.VREFINT_CAL.val 4) 3300
  let tmp ← idiv tmp raw_cpu_reference.val
  pure { s with _actual_cpu_voltage_mv := tmp }

/-- The member `_calculate_cpu_temperature`, with the trap of the division by
`(TEMP110_CAL << 4) - (TEMP30_CAL << 4)`; 3300 is not 0. -/
def _calculate_cpu_temperature (mem : IoSysmem) (s : Adc) (raw_cpu_temperature : U16) :
    Option Adc := do
  let tmp : Int := raw_cpu_temperature.val
  let tmp := imul tmp s._actual_cpu_voltage_mv
  let tmp := board.idiv tmp 3300
  let tmp := isub tmp (ishl mem.TEMP30_CAL.val 4)
  let tmp := imul tmp (110 * 1000 - 30 * 1000)
  let tmp ← idiv tmp (isub (ishl mem.TEMP110_CAL.val 4) (ishl mem.TEMP30_CAL.val 4))
  let tmp := iadd tmp (30 * 1000)
  pure { s with _actual_cpu_temperature_mc := tmp }

/-- The member `_calculate_idle`; the last three routines divide by non-zero
constants only. -/
def _calculate_idle (mem : IoSysmem) (s : Adc) : Option Adc := do
  let s ← _calculate_cpu_voltage mem s s._raw_measured_idle.cpu_reference
  let s ← _calculate_cpu_temperature mem s s._raw_measured_idle.cpu_temperature
  let s := Adc._calculate_supply_voltage s s._raw_measured_idle.supply_voltage
  let s := Adc._calculate_pen_temperature s s._raw_measured_idle.pen_temperature
  pure (Adc._calculate_pen_current s s._raw_measured_idle.pen_current)

/-- The member `_calculate_heat`. -/
def _calculate_heat (mem : IoSysmem) (s : Adc) : Option Adc := do
  let s ← _calculate_cpu_voltage mem s s._raw_measured_heat.cpu_reference
  let s := Adc._calculate_supply_voltage s s._raw_measured_heat.supply_voltage
  pure (Adc._calculate_pen_current s s._raw_measured_heat.pen_current)

/-- The member `_process_idle`. -/
def _process_idle (mem : IoSysmem) (s : Adc) : Option Adc :=
  let s := _process_measure s
  if s._measure_state = State.DONE then _calculate_idle mem s else some s

/-- The member `_process_heat`. -/
def _process_heat (mem : IoSysmem) (s : Adc) : Option Adc :=
  let s := _process_measure s
  if s._measure_state = State.DONE then _calculate_heat mem s else some s

/-- The member `process`: the value returned and the state after the call, or
nothing when a division traps and the call does not return. -/
def process (mem : IoSysmem) (s : Adc) : Option (State × Adc) := do
  let s ←
    match s._measure_state with
    | State.MEASURE_IDLE => _process_idle mem s
    | State.MEASURE_HEAT => _process_heat mem s
    | State.DONE => some s
  pure (s._measure_state, s)

end Checked

end Adc

/-! ## The calibration formulas as the specification words them

Over the unbounded integers, with division truncating toward zero. -/

namespace Spec

/-- The factory reference-voltage code, pre-shifted by 4 bits. -/
def REF_CODE (mem : IoSysmem) : Int := (mem.VREFINT_CAL.val : Int) * 16

/-- The factory temperature code at 30 degrees, pre-shifted by 4 bits. -/
def T30 (mem : IoSysmem) : Int := (mem.TEMP30_CAL.val : Int) * 16

/-- The factory temperature code at 110 degrees, pre-shifted by 4 bits. -/
def T110 (mem : IoSysmem) : Int := (mem.TEMP110_CAL.val : Int) * 16

/-- Formula 1: `cpu_mv = (REF_CODE * 3300) / raw_ref`. -/
def cpu_mv (mem : IoSysmem) (raw_ref : U16) : Int :=
  Int.tdiv (REF_CODE mem * 3300) raw_ref.val

/-- Formula 2: `t = raw_cpu_temp * cpu_mv / 3300;
t = (t - T30) * (110000 - 30000) / (T110 - T30); t += 30000`. -/
def cpu_temperature (mem : IoSysmem) (mv : Int) (raw_cpu_temp : U16) : Int :=
  Int.tdiv ((Int.tdiv (raw_cpu_temp.val * mv) 3300 - T30 mem) * 80000) (T110 mem - T30 mem)
    + 30000

/-- Formula 3: `v = raw_supply * cpu_mv / 0xFFF0; v = v * 78 / 10`. -/
def supply_voltage (mv : Int) (raw_supply : U16) : Int :=
  Int.tdiv (Int.tdiv (raw_supply.val * mv) 0xFFF0 * 78) 10

/-- Formula 4 for a healthy sensor: `t = raw_pen_temp * cpu_mv / 0xFFF0;
t = t * 500000 / 3000`. -/
def pen_temperature_ok (mv : Int) (raw_pen_temp : U16) : Int :=
  Int.tdiv (Int.tdiv (raw_pen_temp.val * mv) 0xFFF0 * 500000) 3000

/-- Formula 4: the healthy value when the code is at most 65000, else 0. -/
def pen_temperature (mv : Int) (raw_pen_temp : U16) : Int :=
  if raw_pen_temp.val ≤ 65000 then pen_temperature_ok mv raw_pen_temp else 0

/-- Formula 5: `i = raw_pen_current - 0xFFF0/2; i = i * cpu_mv / 0xFFF0;
i = i * 1000 / 110`. -/
def pen_current (mv : Int) (raw_pen_current : U16) : Int :=
  Int.tdiv (Int.tdiv (((raw_pen_current.val : Int) - 0x7FF8) * mv) 0xFFF0 * 1000) 110

/-! ### The intermediate values of the formulas

Each predicate lists, in order, the exact value of every intermediate the
routine computes, and says that all of them are in the signed 32-bit range. -/

/-- The intermediates of formula 1: the shifted calibration word, its product
by 3300, the quotient. -/
@[reducible]
def cpu_voltage_fits (mem : IoSysmem) (raw_ref : U16) : Prop :=
  InInt32 (REF_CODE mem) ∧ InInt32 (REF_CODE mem * 3300) ∧ InInt32 (cpu_mv mem raw_ref)

/-- The intermediates of formula 2: the product by the cpu voltage, the quotient
by 3300, the shifted 30-degree word, the difference, the product by 80000, the
shifted 110-degree word, the divisor, the quotient, the sum. -/
@[reducible]
def cpu_temperature_fits (mem : IoSysmem) (mv : Int) (raw_cpu_temp : U16) : Prop :=
  InInt32 (raw_cpu_temp.val * mv) ∧
  InInt32 (Int.tdiv (raw_cpu_temp.val * mv) 3300) ∧
  InInt32 (T30 mem) ∧
  InInt32 (Int.tdiv (raw_cpu_temp.val * mv) 3300 - T30 mem) ∧
  InInt32 ((Int.tdiv (raw_cpu_temp.val * mv) 3300 - T30 mem) * 80000) ∧
  InInt32 (T110 mem) ∧
  InInt32 (T110 mem - T30 mem) ∧
  InInt32 (Int.tdiv ((Int.tdiv (raw_cpu_temp.val * mv) 3300 - T30 mem) * 80000)
    (T110 mem - T30 mem)) ∧
  InInt32 (cpu_temperature mem mv raw_cpu_temp)

/-- The intermediates of formula 3. -/
@[reducible]
def supply_voltage_fits (mv : Int) (raw_supply : U16) : Prop :=
  InInt32 (raw_supply.val * mv) ∧
  InInt32 (Int.tdiv (raw_supply.val * mv) 0xFFF0) ∧
  InInt32 (Int.tdiv (raw_supply.val * mv) 0xFFF0 * 78) ∧
  InInt32 (supply_voltage mv raw_supply)

/-- The intermediates of formula 4; there are none when the code is above 65000. -/
@[reducible]
def pen_temperature_fits (mv : Int) (raw_pen_temp : U16) : Prop :=
  raw_pen_temp.val ≤ 65000 →
    InInt32 (raw_pen_temp.val * mv) ∧
    InInt32 (Int.tdiv (raw_pen_temp.val * mv) 0xFFF0) ∧
    InInt32 (Int.tdiv (raw_pen_temp.val * mv) 0xFFF0 * 500000) ∧
    InInt32 (pen_temperature_ok mv raw_pen_temp)

/-- The intermediates of formula 5. -/
@[reducible]
def pen_current_fits (mv : Int) (raw_pen_current : U16) : Prop :=
  InInt32 ((raw_pen_current.val : Int) - 0x7FF8) ∧
  InInt32 (((raw_pen_current.val : Int) - 0x7FF8) * mv) ∧
  InInt32 (Int.tdiv (((raw_pen_current.val : Int) - 0x7FF8) * mv) 0xFFF0) ∧
  InInt32 (Int.tdiv (((raw_pen_current.val : Int) - 0x7FF8) * mv) 0xFFF0 * 1000) ∧
  InInt32 (pen_current mv raw_pen_current)

/-- No intermediate of an idle cycle leaves the signed 32-bit range. -/
@[reducible]
def idle_fits (mem : IoSysmem) (raw : RawMeasuredIdle) : Prop :=
  cpu_voltage_fits mem raw.cpu_reference ∧
  cpu_temperature_fits mem (cpu_mv mem raw.cpu_reference) raw.cpu_temperature ∧
  supply_voltage_fits (cpu_mv mem raw.cpu_reference) raw.supply_voltage ∧
  pen_temperature_fits (cpu_mv mem raw.cpu_reference) raw.pen_temperature ∧
  pen_current_fits (cpu_mv mem raw.cpu_reference) raw.pen_current

/-- No intermediate of a heat cycle leaves the signed 32-bit range. -/
@[reducible]
def heat_fits (mem : IoSysmem) (raw : RawMeasuredHeat) : Prop :=
  cpu_voltage_fits mem raw.cpu_reference ∧
  supply_voltage_fits (cpu_mv mem raw.cpu_reference) raw.supply_voltage ∧
  pen_current_fits (cpu_mv mem raw.cpu_reference) raw.pen_current

end Spec

/-! ## The scan order -/

/-- The channels a conversion sequence visits for a channel-select mask: the set
bits among `CHSEL0` .. `CHSEL18`, in ascending order (the scan direction
`init_hw` leaves at its zero value). -/
def Chselr.channels (r : Nat) : List Nat := (List.range 19).filter (fun n => r.testBit n)

/-- The ADC channel of each field of `RawMeasuredIdle`, in field order:
`pen_current` on PA0, `pen_temperature` on PA1, `supply_voltage` on PA3,
`cpu_temperature` on channel 16, `cpu_reference` on channel 17. -/
def RawMeasuredIdle.channels : List Nat := [0, 1, 3, 16, 17]

/-- The ADC channel of each field of `RawMeasuredHeat`, in field order:
`pen_current` on PA0, `supply_voltage` on PA3, `cpu_reference` on channel 17. -/
def RawMeasuredHeat.channels : List Nat := [0, 3, 17]

/-! ## Sample inputs -/

/-- Calibration words of a typical part. -/
def sample_mem : IoSysmem := ⟨1489, 1800, 1300⟩

/-- An idle buffer: reference code 23824 gives a cpu voltage of 3300. -/
def sample_idle : RawMeasuredIdle := ⟨40000, 30000, 20000, 28000, 23824⟩

/-- An idle buffer that differs from `sample_idle` in the pen temperature only,
with a code above the fault threshold. -/
def sample_idle_fault : RawMeasuredIdle := ⟨40000, 65001, 20000, 28000, 23824⟩

/-- A heat buffer. -/
def sample_heat : RawMeasuredHeat := ⟨40000, 20000, 23824⟩

/-- An idle cycle whose transfer has completed. -/
def sample_idle_complete : Adc :=
  Adc.hw_run (Adc.measure_idle_start Adc.init)
    [Adc.HwEvent.write_idle sample_idle, Adc.HwEvent.transfer_complete]

/-- A heat cycle whose transfer has completed, after a completed idle cycle. -/
def sample_heat_complete : Adc :=
  Adc.hw_run (Adc.measure_heat_start (Adc.process sample_mem sample_idle_complete).2)
    [Adc.HwEvent.write_heat sample_heat, Adc.HwEvent.transfer_complete]

/-! ## Lemmas on the machine integers -/

theorem wrapInt32_of_fits {x : Int} (h : InInt32 x) : wrapInt32 x = x := by
  unfold wrapInt32
  rw [if_pos h]

theorem wrapInt32_eq_emod (x : Int) :
    wrapInt32 x = (x + 2147483648) % 4294967296 - 2147483648 := by
  unfold wrapInt32
  split
  · rename_i h
    obtain ⟨h1, h2⟩ := h
    omega
  · rfl

theorem wrapInt32_zero : wrapInt32 0 = 0 := by decide

theorem inInt32_wrapInt32 (x : Int) : InInt32 (wrapInt32 x) := by
  rw [wrapInt32_eq_emod]
  constructor <;> omega

theorem tdiv_eq_ite (a b : Int) (hb : 0 ≤ b) :
    Int.tdiv a b = if 0 ≤ a then a / b else -((-a) / b) := by
  split
  · rename_i h
    exact Int.tdiv_eq_ediv h hb
  · rename_i h
    have h1 : (0 : Int) ≤ -a := by omega
    have h2 : Int.tdiv a b = -(Int.tdiv (-a) b) := by
      rw [Int.neg_tdiv, Int.neg_neg]
    rw [h2, Int.tdiv_eq_ediv h1 hb]

theorem inInt32_tdiv_of_nonneg {a b : Int} (ha : InInt32 a) (ha0 : 0 ≤ a) (hb : 0 ≤ b) :
    InInt32 (Int.tdiv a b) := by
  have h1 : 0 ≤ Int.tdiv a b := Int.tdiv_nonneg ha0 hb
  have h2 : Int.tdiv a b ≤ a := by
    rw [Int.tdiv_eq_ediv ha0 hb]
    exact Int.ediv_le_self b ha0
  constructor <;> omega

theorem u16_cast_nonneg (r : U16) : (0 : Int) ≤ (r.val : Int) := Int.ofNat_nonneg _

theorem u16_cast_le (r : U16) : (r.val : Int) ≤ 65535 := by
  have := r.isLt
  omega

/-! ## The routines in closed form -/

namespace Adc

theorem calculate_cpu_voltage_eq (mem : IoSysmem) (s : Adc) (r : U16) :
    _calculate_cpu_voltage mem s r =
      { s with _actual_cpu_voltage_mv := idiv (imul (ishl mem.VREFINT_CAL.val 4) 3300) r.val } := by
  unfold _calculate_cpu_voltage
  rfl

theorem calculate_cpu_temperature_eq (mem : IoSysmem) (s : Adc) (r : U16) :
    _calculate_cpu_temperature mem s r =
      { s with
        _actual_cpu_temperature_mc :=
          iadd (idiv (imul (isub (idiv (imul r.val s._actual_cpu_voltage_mv) 3300)
              (ishl mem.TEMP30_CAL.val 4)) (110 * 1000 - 30 * 1000))
            (isub (ishl mem.TEMP110_CAL.val 4) (ishl mem.TEMP30_CAL.val 4))) (30 * 1000) } := by
  unfold _calculate_cpu_temperature
  rfl

theorem calculate_supply_voltage_eq (s : Adc) (r : U16) :
    _calculate_supply_voltage s r =
      { s with
        _actual_supply_voltage_mv :=
          idiv (imul (idiv (imul r.val s._actual_cpu_voltage_mv) MAX_VALUE) (68 + 10)) 10 } := by
  unfold _calculate_supply_voltage
  rfl

theorem calculate_pen_temperature_eq (s : Adc) (r : U16) :
    _calculate_pen_temperature s r =
      { s with
        _pen_sensor_ok := decide (r.val ≤ 65000)
        _actual_pen_temperature_mc :=
          if r.val ≤ 65000 then
            idiv (imul (idiv (imul r.val s._actual_cpu_voltage_mv) MAX_VALUE) (500 * 1000)) 3000
          else 0 } := by
  unfold _calculate_pen_temperature
  by_cases h : r.val ≤ 65000
  · have h2 : ((r.val : Nat) : Int) ≤ 65000 := by omega
    simp only [h, h2, decide_True, Bool.not_true, if_true, Bool.false_eq_true, if_false]
  · have h2 : ¬ ((r.val : Nat) : Int) ≤ 65000 := by omega
    simp only [h, h2, decide_False, Bool.not_false, if_true, if_false]

theorem calculate_pen_current_eq (s : Adc) (r : U16) :
    _calculate_pen_current s r =
      { s with
        _actual_pen_current_ma :=
          idiv (imul (idiv (imul (isub r.val (idiv MAX_VALUE 2)) s._actual_cpu_voltage_mv)
            MAX_VALUE) 1000) 110 } := by
  unfold _calculate_pen_current
  rfl

end Adc

/-! ## The routines compute the formulas when no intermediate overflows -/

theorem ishl4_of_fits (x : Int) (h : InInt32 (x * 16)) : ishl x 4 = x * 16 := by
  have e : (2 : Int) ^ 4 = 16 := by decide
  unfold ishl
  rw [e, wrapInt32_of_fits h]

theorem idiv_max_value_two : idiv MAX_VALUE 2 = 0x7FF8 := by decide

theorem cpu_voltage_chain (mem : IoSysmem) (r : U16) (h : Spec.cpu_voltage_fits mem r) :
    idiv (imul (ishl mem.VREFINT_CAL.val 4) 3300) r.val = Spec.cpu_mv mem r := by
  obtain ⟨h1, h2, h3⟩ := h
  unfold Spec.cpu_mv at *
  unfold Spec.REF_CODE at *
  rw [ishl4_of_fits _ h1]
  unfold imul idiv
  rw [wrapInt32_of_fits h2, wrapInt32_of_fits h3]

theorem cpu_temperature_chain (mem : IoSysmem) (mv : Int) (r : U16)
    (h : Spec.cpu_temperature_fits mem mv r) :
    iadd (idiv (imul (isub (idiv (imul r.val mv) 3300) (ishl mem.TEMP30_CAL.val 4))
        (110 * 1000 - 30 * 1000))
      (isub (ishl mem.TEMP110_CAL.val 4) (ishl mem.TEMP30_CAL.val 4))) (30 * 1000)
      = Spec.cpu_temperature mem mv r := by
  obtain ⟨h1, h2, h3, h4, h5, h6, h7, h8, h9⟩ := h
  have e1 : (110 * 1000 - 30 * 1000 : Int) = 80000 := by decide
  have e2 : (30 * 1000 : Int) = 30000 := by decide
  unfold Spec.cpu_temperature at *
  unfold Spec.T30 Spec.T110 at *
  rw [ishl4_of_fits _ h3, ishl4_of_fits _ h6, e1, e2]
  unfold imul idiv isub iadd
  rw [wrapInt32_of_fits h1, wrapInt32_of_fits h2, wrapInt32_of_fits h4, wrapInt32_of_fits h5,
    wrapInt32_of_fits h7, wrapInt32_of_fits h8, wrapInt32_of_fits h9]

theorem supply_voltage_chain (mv : Int) (r : U16) (h : Spec.supply_voltage_fits mv r) :
    idiv (imul (idiv (imul r.val mv) MAX_VALUE) (68 + 10)) 10 = Spec.supply_voltage mv r := by
  obtain ⟨h1, h2, h3, h4⟩ := h
  have e1 : (68 + 10 : Int) = 78 := by decide
  unfold Spec.supply_voltage at *
  unfold imul idiv MAX_VALUE
  rw [e1, wrapInt32_of_fits h1, wrapInt32_of_fits h2, wrapInt32_of_fits h3, wrapInt32_of_fits h4]

theorem pen_temperature_chain (mv : Int) (r : U16) (h : Spec.pen_temperature_fits mv r) :
    (if r.val ≤ 65000 then
        idiv (imul (idiv (imul r.val mv) MAX_VALUE) (500 * 1000)) 3000
      else 0) = Spec.pen_temperature mv r := by
  unfold Spec.pen_temperature
  by_cases hr : r.val ≤ 65000
  · obtain ⟨h1, h2, h3, h4⟩ := h hr
    have e1 : (500 * 1000 : Int) = 500000 := by decide
    unfold Spec.pen_temperature_ok at *
    unfold imul idiv MAX_VALUE
    rw [if_pos hr, if_pos hr, e1, wrapInt32_of_fits h1, wrapInt32_of_fits h2,
      wrapInt32_of_fits h3, wrapInt32_of_fits h4]
  · rw [if_neg hr, if_neg hr]

theorem pen_current_chain (mv : Int) (r : U16) (h : Spec.pen_current_fits mv r) :
    idiv (imul (idiv (imul (isub r.val (idiv MAX_VALUE 2)) mv) MAX_VALUE) 1000) 110
      = Spec.pen_current mv r := by
  obtain ⟨h0, h1, h2, h3, h4⟩ := h
  unfold Spec.pen_current at *
  rw [idiv_max_value_two]
  unfold imul idiv isub MAX_VALUE
  rw [wrapInt32_of_fits h0, wrapInt32_of_fits h1, wrapInt32_of_fits h2, wrapInt32_of_fits h3,
    wrapInt32_of_fits h4]

namespace Adc

theorem calculate_idle_eq (mem : IoSysmem) (s : Adc) :
    _calculate_idle mem s =
      { s with
        _actual_cpu_voltage_mv :=
          idiv (imul (ishl mem.VREFINT_CAL.val 4) 3300) s._raw_measured_idle.cpu_reference.val
        _actual_cpu_temperature_mc :=
          iadd (idiv (imul (isub (idiv (imul s._raw_measured_idle.cpu_temperature.val
              (idiv (imul (ishl mem.VREFINT_CAL.val 4) 3300)
                s._raw_measured_idle.cpu_reference.val)) 3300)
              (ishl mem.TEMP30_CAL.val 4)) (110 * 1000 - 30 * 1000))
            (isub (ishl mem.TEMP110_CAL.val 4) (ishl mem.TEMP30_CAL.val 4))) (30 * 1000)
        _actual_supply_voltage_mv :=
          idiv (imul (idiv (imul s._raw_measured_idle.supply_voltage.val
            (idiv (imul (ishl mem.VREFINT_CAL.val 4) 3300)
              s._raw_measured_idle.cpu_reference.val)) MAX_VALUE) (68 + 10)) 10
        _pen_sensor_ok := decide (s._raw_measured_idle.pen_temperature.val ≤ 65000)
        _actual_pen_temperature_mc :=
          if s._raw_measured_idle.pen_temperature.val ≤ 65000 then
            idiv (imul (idiv (imul s._raw_measured_idle.pen_temperature.val
              (idiv (imul (ishl mem.VREFINT_CAL.val 4) 3300)
                s._raw_measured_idle.cpu_reference.val)) MAX_VALUE) (500 * 1000)) 3000
          else 0
        _actual_pen_current_ma :=
          idiv (imul (idiv (imul (isub s._raw_measured_idle.pen_current.val (idiv MAX_VALUE 2))
            (idiv (imul (ishl mem.VREFINT_CAL.val 4) 3300)
              s._raw_measured_idle.cpu_reference.val)) MAX_VALUE) 1000) 110 } := by
  unfold _calculate_idle
  simp only [calculate_cpu_voltage_eq, calculate_cpu_temperature_eq, calculate_supply_voltage_eq,
    calculate_pen_temperature_eq, calculate_pen_current_eq]

theorem calculate_heat_eq (mem : IoSysmem) (s : Adc) :
    _calculate_heat mem s =
      { s with
        _actual_cpu_voltage_mv :=
          idiv (imul (ishl mem.VREFINT_CAL.val 4) 3300) s._raw_measured_heat.cpu_reference.val
        _actual_supply_voltage_mv :=
          idiv (imul (idiv (imul s._raw_measured_heat.supply_voltage.val
            (idiv (imul (ishl mem.VREFINT_CAL.val 4) 3300)
              s._raw_measured_heat.cpu_reference.val)) MAX_VALUE) (68 + 10)) 10
        _actual_pen_current_ma :=
          idiv (imul (idiv (imul (isub s._raw_measured_heat.pen_current.val (idiv MAX_VALUE 2))
            (idiv (imul (ishl mem.VREFINT_CAL.val 4) 3300)
              s._raw_measured_heat.cpu_reference.val)) MAX_VALUE) 1000) 110 } := by
  unfold _calculate_heat
  simp only [calculate_cpu_voltage_eq, calculate_supply_voltage_eq, calculate_pen_current_eq]

theorem process_measure_clear (s : Adc) (h : s.r_dma.TCIF = false) : _process_measure s = s := by
  unfold _process_measure
  rw [h]
  rfl

theorem process_measure_set (s : Adc) (h : s.r_dma.TCIF = true) :
    _process_measure s =
      { s with r_dma := s.r_dma.clear_flags, _measure_state := State.DONE } := by
  unfold _process_measure
  rw [h]
  rfl

theorem process_of_done (mem : IoSysmem) (s : Adc) (h : s._measure_state = State.DONE) :
    process mem s = (State.DONE, s) := by
  simp only [process, h]

theorem process_idle_clear (mem : IoSysmem) (s : Adc)
    (hs : s._measure_state = State.MEASURE_IDLE) (hf : s.r_dma.TCIF = false) :
    process mem s = (State.MEASURE_IDLE, s) := by
  have hne : ¬ (State.MEASURE_IDLE = State.DONE) := by decide
  simp only [process, hs, _process_idle, process_measure_clear s hf, if_neg hne]

theorem process_heat_clear (mem : IoSysmem) (s : Adc)
    (hs : s._measure_state = State.MEASURE_HEAT) (hf : s.r_dma.TCIF = false) :
    process mem s = (State.MEASURE_HEAT, s) := by
  have hne : ¬ (State.MEASURE_HEAT = State.DONE) := by decide
  simp only [process, hs, _process_heat, process_measure_clear s hf, if_neg hne]

theorem process_idle_set (mem : IoSysmem) (s : Adc)
    (hs : s._measure_state = State.MEASURE_IDLE) (hf : s.r_dma.TCIF = true) :
    process mem s =
      (State.DONE,
        _calculate_idle mem
          { s with r_dma := s.r_dma.clear_flags, _measure_state := State.DONE }) := by
  simp only [process, hs, _process_idle, process_measure_set s hf, if_true, calculate_idle_eq]

theorem process_heat_set (mem : IoSysmem) (s : Adc)
    (hs : s._measure_state = State.MEASURE_HEAT) (hf : s.r_dma.TCIF = true) :
    process mem s =
      (State.DONE,
        _calculate_heat mem
          { s with r_dma := s.r_dma.clear_flags, _measure_state := State.DONE }) := by
  simp only [process, hs, _process_heat, process_measure_set s hf, if_true, calculate_heat_eq]

end Adc

namespace Adc

theorem calculate_idle_measure_state (mem : IoSysmem) (s : Adc) :
    (_calculate_idle mem s)._measure_state = s._measure_state := by
  rw [calculate_idle_eq]

theorem calculate_idle_r_dma (mem : IoSysmem) (s : Adc) :
    (_calculate_idle mem s).r_dma = s.r_dma := by
  rw [calculate_idle_eq]

theorem calculate_heat_measure_state (mem : IoSysmem) (s : Adc) :
    (_calculate_heat mem s)._measure_state = s._measure_state := by
  rw [calculate_heat_eq]

theorem calculate_heat_r_dma (mem : IoSysmem) (s : Adc) :
    (_calculate_heat mem s).r_dma = s.r_dma := by
  rw [calculate_heat_eq]

theorem process_of_flag_clear (mem : IoSysmem) (s : Adc) (hf : s.r_dma.TCIF = false) :
    process mem s = (s._measure_state, s) := by
  cases hs : s._measure_state
  · exact process_of_done mem s hs
  · exact process_idle_clear mem s hs hf
  · exact process_heat_clear mem s hs hf

theorem process_fst (mem : IoSysmem) (s : Adc) :
    (process mem s).1 = (process mem s).2._measure_state := by
  unfold process
  rfl

theorem process_of_flag_set (mem : IoSysmem) (s : Adc) (hs : s._measure_state ≠ State.DONE)
    (hf : s.r_dma.TCIF = true) :
    (process mem s).1 = State.DONE ∧ (process mem s).2._measure_state = State.DONE ∧
      (process mem s).2.r_dma.TCIF = false := by
  cases h : s._measure_state
  · exact absurd h hs
  · rw [process_idle_set mem s h hf]
    refine ⟨rfl, ?_, ?_⟩
    · rw [calculate_idle_measure_state]
    · rw [calculate_idle_r_dma]
      rfl
  · rw [process_heat_set mem s h hf]
    refine ⟨rfl, ?_, ?_⟩
    · rw [calculate_heat_measure_state]
    · rw [calculate_heat_r_dma]
      rfl

theorem hw_step_measure_state (s : Adc) (e : HwEvent) :
    (hw_step s e)._measure_state = s._measure_state := by
  cases e <;> rfl

theorem hw_run_measure_state (s : Adc) (evs : List HwEvent) :
    (hw_run s evs)._measure_state = s._measure_state := by
  induction evs generalizing s with
  | nil => rfl
  | cons e evs ih =>
    show (hw_run (hw_step s e) evs)._measure_state = s._measure_state
    rw [ih, hw_step_measure_state]

theorem measure_idle_start_measure_state (s : Adc) :
    (measure_idle_start s)._measure_state = State.MEASURE_IDLE := by
  unfold measure_idle_start _start_dma_measure
  rfl

theorem measure_heat_start_measure_state (s : Adc) :
    (measure_heat_start s)._measure_state = State.MEASURE_HEAT := by
  unfold measure_heat_start _start_dma_measure
  rfl

theorem measure_idle_start_readings (s : Adc) :
    readings (measure_idle_start s) = readings s := by
  unfold measure_idle_start _start_dma_measure readings
  rfl

theorem measure_heat_start_readings (s : Adc) :
    readings (measure_heat_start s) = readings s := by
  unfold measure_heat_start _start_dma_measure readings
  rfl

theorem measure_idle_start_tcif (s : Adc) : (measure_idle_start s).r_dma.TCIF = false := by
  unfold measure_idle_start _start_dma_measure
  rfl

theorem measure_heat_start_tcif (s : Adc) : (measure_heat_start s).r_dma.TCIF = false := by
  unfold measure_heat_start _start_dma_measure
  rfl

end Adc

/-! ## The trapping routines against the total ones -/

namespace Adc

theorem checked_idiv_of_ne_zero (a b : Int) (h : b ≠ 0) :
    Checked.idiv a b = some (idiv a b) := by
  unfold Checked.idiv
  rw [if_neg h]

theorem checked_idiv_zero (a : Int) : Checked.idiv a 0 = none := by
  unfold Checked.idiv
  rw [if_pos rfl]

theorem checked_calculate_cpu_voltage (mem : IoSysmem) (s : Adc) (r : U16) (h : 0 < r.val) :
    Checked._calculate_cpu_voltage mem s r = some (_calculate_cpu_voltage mem s r) := by
  have hr : ((r.val : Nat) : Int) ≠ 0 := by omega
  unfold Checked._calculate_cpu_voltage
  rw [calculate_cpu_voltage_eq]
  simp only [checked_idiv_of_ne_zero _ _ hr, Option.pure_def, Option.bind_eq_bind,
    Option.some_bind]

theorem checked_calculate_cpu_voltage_zero (mem : IoSysmem) (s : Adc) (r : U16)
    (h : r.val = 0) : Checked._calculate_cpu_voltage mem s r = none := by
  have hr : ((r.val : Nat) : Int) = 0 := by omega
  unfold Checked._calculate_cpu_voltage
  simp only [hr, checked_idiv_zero, Option.bind_eq_bind, Option.none_bind]

theorem temperature_divisor_ne_zero (mem : IoSysmem) (h : Spec.T110 mem ≠ Spec.T30 mem) :
    isub (ishl mem.TEMP110_CAL.val 4) (ishl mem.TEMP30_CAL.val 4) ≠ 0 := by
  have a := u16_cast_nonneg mem.TEMP110_CAL
  have b := u16_cast_le mem.TEMP110_CAL
  have c := u16_cast_nonneg mem.TEMP30_CAL
  have d := u16_cast_le mem.TEMP30_CAL
  unfold Spec.T110 Spec.T30 at h
  rw [ishl4_of_fits _ (by constructor <;> omega), ishl4_of_fits _ (by constructor <;> omega)]
  unfold isub
  rw [wrapInt32_of_fits (by constructor <;> omega)]
  omega

theorem checked_calculate_cpu_temperature_of_divisor (mem : IoSysmem) (s : Adc) (r : U16)
    (h : isub (ishl mem.TEMP110_CAL.val 4) (ishl mem.TEMP30_CAL.val 4) ≠ 0) :
    Checked._calculate_cpu_temperature mem s r = some (_calculate_cpu_temperature mem s r) := by
  unfold Checked._calculate_cpu_temperature
  rw [calculate_cpu_temperature_eq]
  simp only [checked_idiv_of_ne_zero _ _ h, Option.pure_def, Option.bind_eq_bind,
    Option.some_bind]

theorem checked_calculate_cpu_temperature_zero (mem : IoSysmem) (s : Adc) (r : U16)
    (h : isub (ishl mem.TEMP110_CAL.val 4) (ishl mem.TEMP30_CAL.val 4) = 0) :
    Checked._calculate_cpu_temperature mem s r = none := by
  unfold Checked._calculate_cpu_temperature
  simp only [h, checked_idiv_zero, Option.bind_eq_bind, Option.none_bind]

theorem checked_calculate_idle_of_divisor (mem : IoSysmem) (s : Adc)
    (hcr : 0 < s._raw_measured_idle.cpu_reference.val)
    (hd : isub (ishl mem.TEMP110_CAL.val 4) (ishl mem.TEMP30_CAL.val 4) ≠ 0) :
    Checked._calculate_idle mem s = some (_calculate_idle mem s) := by
  unfold Checked._calculate_idle _calculate_idle
  simp only [checked_calculate_cpu_voltage mem s _ hcr,
    checked_calculate_cpu_temperature_of_divisor mem _ _ hd,
    Option.pure_def, Option.bind_eq_bind, Option.some_bind]

theorem checked_calculate_idle (mem : IoSysmem) (s : Adc)
    (hcr : 0 < s._raw_measured_idle.cpu_reference.val) (hT : Spec.T110 mem ≠ Spec.T30 mem) :
    Checked._calculate_idle mem s = some (_calculate_idle mem s) :=
  checked_calculate_idle_of_divisor mem s hcr (temperature_divisor_ne_zero mem hT)

theorem checked_calculate_heat (mem : IoSysmem) (s : Adc)
    (hcr : 0 < s._raw_measured_heat.cpu_reference.val) :
    Checked._calculate_heat mem s = some (_calculate_heat mem s) := by
  unfold Checked._calculate_heat _calculate_heat
  simp only [checked_calculate_cpu_voltage mem s _ hcr, Option.pure_def, Option.bind_eq_bind,
    Option.some_bind]

theorem checked_calculate_idle_some (mem : IoSysmem) (s r : Adc)
    (h : Checked._calculate_idle mem s = some r) : r = _calculate_idle mem s := by
  by_cases hcr : s._raw_measured_idle.cpu_reference.val = 0
  · unfold Checked._calculate_idle at h
    rw [checked_calculate_cpu_voltage_zero mem s _ hcr] at h
    exact absurd h (by simp only [Option.bind_eq_bind, Option.none_bind, not_false_eq_true,
      reduceCtorEq])
  · have hpos : 0 < s._raw_measured_idle.cpu_reference.val := by omega
    by_cases hd : isub (ishl mem.TEMP110_CAL.val 4) (ishl mem.TEMP30_CAL.val 4) = 0
    · unfold Checked._calculate_idle at h
      rw [checked_calculate_cpu_voltage mem s _ hpos] at h
      simp only [Option.bind_eq_bind, Option.some_bind,
        checked_calculate_cpu_temperature_zero mem _ _ hd, Option.none_bind] at h
      exact absurd h (by simp only [not_false_eq_true, reduceCtorEq])
    · rw [checked_calculate_idle_of_divisor mem s hpos hd] at h
      exact (Option.some.inj h).symm

theorem checked_calculate_heat_some (mem : IoSysmem) (s r : Adc)
    (h : Checked._calculate_heat mem s = some r) : r = _calculate_heat mem s := by
  by_cases hcr : s._raw_measured_heat.cpu_reference.val = 0
  · unfold Checked._calculate_heat at h
    rw [checked_calculate_cpu_voltage_zero mem s _ hcr] at h
    exact absurd h (by simp only [Option.bind_eq_bind, Option.none_bind, not_false_eq_true,
      reduceCtorEq])
  · have hpos : 0 < s._raw_measured_heat.cpu_reference.val := by omega
    rw [checked_calculate_heat mem s hpos] at h
    exact (Option.some.inj h).symm

theorem checked_process_of_done (mem : IoSysmem) (s : Adc) (h : s._measure_state = State.DONE) :
    Checked.process mem s = some (State.DONE, s) := by
  simp only [Checked.process, h, Option.pure_def, Option.bind_eq_bind, Option.some_bind]

theorem checked_process_idle_clear (mem : IoSysmem) (s : Adc)
    (hs : s._measure_state = State.MEASURE_IDLE) (hf : s.r_dma.TCIF = false) :
    Checked.process mem s = some (State.MEASURE_IDLE, s) := by
  have hne : ¬ (State.MEASURE_IDLE = State.DONE) := by decide
  simp only [Checked.process, hs, Checked._process_idle, process_measure_clear s hf, if_neg hne,
    Option.pure_def, Option.bind_eq_bind, Option.some_bind]

theorem checked_process_heat_clear (mem : IoSysmem) (s : Adc)
    (hs : s._measure_state = State.MEASURE_HEAT) (hf : s.r_dma.TCIF = false) :
    Checked.process mem s = some (State.MEASURE_HEAT, s) := by
  have hne : ¬ (State.MEASURE_HEAT = State.DONE) := by decide
  simp only [Checked.process, hs, Checked._process_heat, process_measure_clear s hf, if_neg hne,
    Option.pure_def, Option.bind_eq_bind, Option.some_bind]

theorem checked_process_idle_set_eq (mem : IoSysmem) (s : Adc)
    (hs : s._measure_state = State.MEASURE_IDLE) (hf : s.r_dma.TCIF = true) :
    Checked.process mem s =
      (Checked._calculate_idle mem
        { s with r_dma := s.r_dma.clear_flags, _measure_state := State.DONE }).bind
        (fun t => some (t._measure_state, t)) := by
  simp only [Checked.process, hs, Checked._process_idle, process_measure_set s hf, if_true,
    Option.pure_def, Option.bind_eq_bind]

theorem checked_process_heat_set_eq (mem : IoSysmem) (s : Adc)
    (hs : s._measure_state = State.MEASURE_HEAT) (hf : s.r_dma.TCIF = true) :
    Checked.process mem s =
      (Checked._calculate_heat mem
        { s with r_dma := s.r_dma.clear_flags, _measure_state := State.DONE }).bind
        (fun t => some (t._measure_state, t)) := by
  simp only [Checked.process, hs, Checked._process_heat, process_measure_set s hf, if_true,
    Option.pure_def, Option.bind_eq_bind]

theorem checked_process_of_flag_clear (mem : IoSysmem) (s : Adc) (hf : s.r_dma.TCIF = false) :
    Checked.process mem s = some (s._measure_state, s) := by
  cases hs : s._measure_state
  · exact checked_process_of_done mem s hs
  · exact checked_process_idle_clear mem s hs hf
  · exact checked_process_heat_clear mem s hs hf

theorem checked_process_idle_set (mem : IoSysmem) (s : Adc)
    (hs : s._measure_state = State.MEASURE_IDLE) (hf : s.r_dma.TCIF = true)
    (hcr : 0 < s._raw_measured_idle.cpu_reference.val) (hT : Spec.T110 mem ≠ Spec.T30 mem) :
    Checked.process mem s = some (State.DONE, (process mem s).2) := by
  have e := checked_calculate_idle mem
    { s with r_dma := s.r_dma.clear_flags, _measure_state := State.DONE } hcr hT
  rw [checked_process_idle_set_eq mem s hs hf, process_idle_set mem s hs hf, e]
  simp only [Option.some_bind, calculate_idle_measure_state]

theorem checked_process_heat_set (mem : IoSysmem) (s : Adc)
    (hs : s._measure_state = State.MEASURE_HEAT) (hf : s.r_dma.TCIF = true)
    (hcr : 0 < s._raw_measured_heat.cpu_reference.val) :
    Checked.process mem s = some (State.DONE, (process mem s).2) := by
  have e := checked_calculate_heat mem
    { s with r_dma := s.r_dma.clear_flags, _measure_state := State.DONE } hcr
  rw [checked_process_heat_set_eq mem s hs hf, process_heat_set mem s hs hf, e]
  simp only [Option.some_bind, calculate_heat_measure_state]

theorem checked_process_some (mem : IoSysmem) (s : Adc) (r : State × Adc)
    (h : Checked.process mem s = some r) : r = process mem s := by
  cases hf : s.r_dma.TCIF
  · rw [checked_process_of_flag_clear mem s hf] at h
    rw [process_of_flag_clear mem s hf]
    exact (Option.some.inj h).symm
  · cases hs : s._measure_state
    · rw [checked_process_of_done mem s hs] at h
      rw [process_of_done mem s hs]
      exact (Option.some.inj h).symm
    · rw [checked_process_idle_set_eq mem s hs hf] at h
      rw [process_idle_set mem s hs hf]
      cases hc : Checked._calculate_idle mem
          { s with r_dma := s.r_dma.clear_flags, _measure_state := State.DONE } with
      | none =>
        rw [hc] at h
        exact absurd h (by simp only [Option.none_bind, not_false_eq_true, reduceCtorEq])
      | some t =>
        rw [hc, Option.some_bind] at h
        have e := checked_calculate_idle_some mem _ t hc
        rw [← Option.some.inj h, e, calculate_idle_measure_state]
    · rw [checked_process_heat_set_eq mem s hs hf] at h
      rw [process_heat_set mem s hs hf]
      cases hc : Checked._calculate_heat mem
          { s with r_dma := s.r_dma.clear_flags, _measure_state := State.DONE } with
      | none =>
        rw [hc] at h
        exact absurd h (by simp only [Option.none_bind, not_false_eq_true, reduceCtorEq])
      | some t =>
        rw [hc, Option.some_bind] at h
        have e := checked_calculate_heat_some mem _ t hc
        rw [← Option.some.inj h, e, calculate_heat_measure_state]

end Adc

/-! ## The claims -/

open Adc

/-- C1, as stated, fails: after `measure_idle_start` on the initial object the
idle buffer holds the reference code 0; when the transfer-complete flag is set,
`process` divides by that code in `_calculate_cpu_voltage` and does not return.
With a non-zero reference code but equal temperature calibration words the
division in `_calculate_cpu_temperature` traps in the same way. -/
theorem process_traps_on_zero_divisor :
    (hw_run (measure_idle_start init) [HwEvent.transfer_complete]).r_dma.TCIF = true ∧
    (hw_run (measure_idle_start init)
      [HwEvent.transfer_complete])._raw_measured_idle.cpu_reference.val = 0 ∧
    Checked.process sample_mem
      (hw_run (measure_idle_start init) [HwEvent.transfer_complete]) = none ∧
    Checked.process ⟨1489, 1800, 1800⟩ sample_idle_complete = none := by
  decide

/-- C1, amended: after `measure_idle_start` (resp. `measure_heat_start`), and
whatever the hardware does meanwhile, a `process` that sees the transfer-complete
flag clear returns `MEASURE_IDLE` (resp. `MEASURE_HEAT`) and changes nothing; one
that sees the flag set, the buffer's reference code being above 0 (and, for an
idle cycle, `T110 ≠ T30`), returns `DONE`, sets the measure state to `DONE` and
clears the flag. From a measuring state with the flag clear `process` returns and
never returns `DONE`, and whenever `process` returns, the value returned is the
measure state after the call. -/
theorem process_after_start (mem : IoSysmem) (s : Adc) (evs : List HwEvent) :
    ((hw_run (measure_idle_start s) evs).r_dma.TCIF = false →
      Checked.process mem (hw_run (measure_idle_start s) evs)
        = some (State.MEASURE_IDLE, hw_run (measure_idle_start s) evs)) ∧
    ((hw_run (measure_idle_start s) evs).r_dma.TCIF = true →
      0 < (hw_run (measure_idle_start s) evs)._raw_measured_idle.cpu_reference.val →
      Spec.T110 mem ≠ Spec.T30 mem →
      Checked.process mem (hw_run (measure_idle_start s) evs)
        = some (State.DONE, (process mem (hw_run (measure_idle_start s) evs)).2) ∧
      (process mem (hw_run (measure_idle_start s) evs)).2._measure_state = State.DONE ∧
      (process mem (hw_run (measure_idle_start s) evs)).2.r_dma.TCIF = false) ∧
    ((hw_run (measure_heat_start s) evs).r_dma.TCIF = false →
      Checked.process mem (hw_run (measure_heat_start s) evs)
        = some (State.MEASURE_HEAT, hw_run (measure_heat_start s) evs)) ∧
    ((hw_run (measure_heat_start s) evs).r_dma.TCIF = true →
      0 < (hw_run (measure_heat_start s) evs)._raw_measured_heat.cpu_reference.val →
      Checked.process mem (hw_run (measure_heat_start s) evs)
        = some (State.DONE, (process mem (hw_run (measure_heat_start s) evs)).2) ∧
      (process mem (hw_run (measure_heat_start s) evs)).2._measure_state = State.DONE ∧
      (process mem (hw_run (measure_heat_start s) evs)).2.r_dma.TCIF = false) ∧
    (∀ t : Adc, t._measure_state ≠ State.DONE → t.r_dma.TCIF = false →
      Checked.process mem t = some (t._measure_state, t)) ∧
    (∀ (t : Adc) (r : State × Adc), Checked.process mem t = some r →
      r.1 = r.2._measure_state) := by
  have hi : (hw_run (measure_idle_start s) evs)._measure_state = State.MEASURE_IDLE := by
    rw [hw_run_measure_state, measure_idle_start_measure_state]
  have hh : (hw_run (measure_heat_start s) evs)._measure_state = State.MEASURE_HEAT := by
    rw [hw_run_measure_state, measure_heat_start_measure_state]
  refine ⟨?_, ?_, ?_, ?_, ?_, ?_⟩
  · intro hf
    exact checked_process_idle_clear mem _ hi hf
  · intro hf hcr hT
    have k := process_of_flag_set mem _ (by rw [hi]; decide) hf
    exact ⟨checked_process_idle_set mem _ hi hf hcr hT, k.2.1, k.2.2⟩
  · intro hf
    exact checked_process_heat_clear mem _ hh hf
  · intro hf hcr
    have k := process_of_flag_set mem _ (by rw [hh]; decide) hf
    exact ⟨checked_process_heat_set mem _ hh hf hcr, k.2.1, k.2.2⟩
  · intro t _ hf
    exact checked_process_of_flag_clear mem t hf
  · intro t r h
    rw [checked_process_some mem t r h]
    exact process_fst mem t

/-- Witness of C1 (amended): the sample idle cycle, reference code 23824, whose
transfer has completed; `process` returns `DONE`. -/
theorem process_after_start_witness :
    Checked.process sample_mem
        (hw_run (measure_idle_start init)
          [HwEvent.write_idle sample_idle, HwEvent.transfer_complete])
      = some (State.DONE, (process sample_mem
          (hw_run (measure_idle_start init)
            [HwEvent.write_idle sample_idle, HwEvent.transfer_complete])).2) ∧
    (process sample_mem
        (hw_run (measure_idle_start init)
          [HwEvent.write_idle sample_idle, HwEvent.transfer_complete])).2._measure_state
        = State.DONE ∧
    (process sample_mem
        (hw_run (measure_idle_start init)
          [HwEvent.write_idle sample_idle, HwEvent.transfer_complete])).2.r_dma.TCIF = false :=
  (process_after_start sample_mem init
    [HwEvent.write_idle sample_idle, HwEvent.transfer_complete]).2.1
    (by decide) (by decide) (by decide)

/-- C2: from a state whose measure state is `DONE`, `process` returns `DONE` and
changes nothing at all (measure state, the six readings, the transfer-complete
flag, the raw buffers, the registers), whatever the flag and the buffers hold;
so a second `process` gives what the first gave. -/
theorem process_done_idempotent (mem : IoSysmem) (s : Adc)
    (h : s._measure_state = State.DONE) :
    process mem s = (State.DONE, s) ∧
    readings (process mem s).2 = readings s ∧
    (process mem s).2._measure_state = s._measure_state ∧
    (process mem s).2.r_dma.TCIF = s.r_dma.TCIF ∧
    process mem (process mem s).2 = process mem s := by
  have h1 := process_of_done mem s h
  rw [h1]
  exact ⟨rfl, rfl, rfl, rfl, h1⟩

/-- Witness of C2: the initial object with a stale flag set and codes in the idle
buffer. -/
theorem process_done_idempotent_witness :
    process sample_mem
        (hw_run init [HwEvent.write_idle sample_idle, HwEvent.transfer_complete])
      = (State.DONE, hw_run init [HwEvent.write_idle sample_idle, HwEvent.transfer_complete]) :=
  (process_done_idempotent sample_mem
    (hw_run init [HwEvent.write_idle sample_idle, HwEvent.transfer_complete]) (by decide)).1

/-- C3: a completed heat cycle (measure state `MEASURE_HEAT`, flag set, reference
code above 0, no intermediate outside the signed 32-bit range) leaves the cpu
temperature, the pen temperature and the pen-sensor flag as they were, and
stores cpu voltage `(REF_CODE * 3300) / cpu_reference`, supply voltage
`((supply_voltage * cpu_mv) / 0xFFF0 * 78) / 10` and pen current
`(((pen_current - 0x7FF8) * cpu_mv) / 0xFFF0 * 1000) / 110`, with `cpu_mv` the
cpu voltage of this same heat buffer and division truncating. -/
theorem heat_cycle_readings (mem : IoSysmem) (s : Adc)
    (hs : s._measure_state = State.MEASURE_HEAT) (hf : s.r_dma.TCIF = true)
    (_hcr : 0 < s._raw_measured_heat.cpu_reference.val)
    (hfit : Spec.heat_fits mem s._raw_measured_heat) :
    get_cpu_temperature_mc (process mem s).2 = get_cpu_temperature_mc s ∧
    get_pen_temperature_mc (process mem s).2 = get_pen_temperature_mc s ∧
    is_pen_sensor_ok (process mem s).2 = is_pen_sensor_ok s ∧
    get_cpu_voltage_mv (process mem s).2
      = Int.tdiv (Spec.REF_CODE mem * 3300) s._raw_measured_heat.cpu_reference.val ∧
    get_supply_voltage_mv (process mem s).2
      = Int.tdiv (Int.tdiv (s._raw_measured_heat.supply_voltage.val
          * Spec.cpu_mv mem s._raw_measured_heat.cpu_reference) 0xFFF0 * 78) 10 ∧
    get_pen_current_ma (process mem s).2
      = Int.tdiv (Int.tdiv (((s._raw_measured_heat.pen_current.val : Int) - 0x7FF8)
          * Spec.cpu_mv mem s._raw_measured_heat.cpu_reference) 0xFFF0 * 1000) 110 := by
  obtain ⟨h1, h2, h3⟩ := hfit
  have e1 := cpu_voltage_chain mem _ h1
  have e2 := supply_voltage_chain _ _ h2
  have e3 := pen_current_chain _ _ h3
  rw [process_heat_set mem s hs hf]
  simp only [calculate_heat_eq, get_cpu_temperature_mc, get_pen_temperature_mc,
    is_pen_sensor_ok, get_cpu_voltage_mv, get_supply_voltage_mv, get_pen_current_ma, e1, e2, e3]
  exact ⟨trivial, trivial, trivial, rfl, rfl, rfl⟩

/-- Witness of C3: the heat cycle that follows the sample idle cycle, with a
reference code of 23824 (cpu voltage 3300). -/
theorem heat_cycle_readings_witness :
    get_cpu_temperature_mc (process sample_mem sample_heat_complete).2
      = get_cpu_temperature_mc sample_heat_complete ∧
    get_pen_temperature_mc (process sample_mem sample_heat_complete).2
      = get_pen_temperature_mc sample_heat_complete ∧
    is_pen_sensor_ok (process sample_mem sample_heat_complete).2
      = is_pen_sensor_ok sample_heat_complete ∧
    get_cpu_voltage_mv (process sample_mem sample_heat_complete).2
      = Int.tdiv (Spec.REF_CODE sample_mem * 3300)
          sample_heat_complete._raw_measured_heat.cpu_reference.val ∧
    get_supply_voltage_mv (process sample_mem sample_heat_complete).2
      = Int.tdiv (Int.tdiv (sample_heat_complete._raw_measured_heat.supply_voltage.val
          * Spec.cpu_mv sample_mem sample_heat_complete._raw_measured_heat.cpu_reference)
            0xFFF0 * 78) 10 ∧
    get_pen_current_ma (process sample_mem sample_heat_complete).2
      = Int.tdiv (Int.tdiv
          (((sample_heat_complete._raw_measured_heat.pen_current.val : Int) - 0x7FF8)
          * Spec.cpu_mv sample_mem sample_heat_complete._raw_measured_heat.cpu_reference)
            0xFFF0 * 1000) 110 :=
  heat_cycle_readings sample_mem sample_heat_complete
    (by decide) (by decide)
    (by decide) (by decide)

/-- C4: `_calculate_pen_temperature` sets `_pen_sensor_ok` exactly when the raw
code is at most 65000, whatever the cpu voltage; above 65000 the pen temperature
reading is 0. At 65000 the sensor is ok, at 65001 it is not and the reading is 0. -/
theorem pen_sensor_fault_boundary (s : Adc) (r : U16) :
    (is_pen_sensor_ok (_calculate_pen_temperature s r) = true ↔ r.val ≤ 65000) ∧
    (65000 < r.val → get_pen_temperature_mc (_calculate_pen_temperature s r) = 0) ∧
    is_pen_sensor_ok (_calculate_pen_temperature s 65000) = true ∧
    is_pen_sensor_ok (_calculate_pen_temperature s 65001) = false ∧
    get_pen_temperature_mc (_calculate_pen_temperature s 65001) = 0 := by
  have h0 : ((65000 : U16).val ≤ 65000) := by decide
  have h1 : ¬ ((65001 : U16).val ≤ 65000) := by decide
  refine ⟨?_, ?_, ?_, ?_, ?_⟩
  · rw [calculate_pen_temperature_eq]
    simp only [is_pen_sensor_ok, decide_eq_true_eq]
  · intro h
    have h2 : ¬ (r.val ≤ 65000) := by omega
    rw [calculate_pen_temperature_eq]
    simp only [get_pen_temperature_mc, if_neg h2]
  · rw [calculate_pen_temperature_eq]
    simp only [is_pen_sensor_ok, decide_eq_true_eq]
    exact h0
  · rw [calculate_pen_temperature_eq]
    simp only [is_pen_sensor_ok, decide_eq_false_iff_not]
    exact h1
  · rw [calculate_pen_temperature_eq]
    simp only [get_pen_temperature_mc, if_neg h1]

/-- Witness of C4: the code 65001 forces the pen temperature of the completed
sample cycle (251666) to 0. -/
theorem pen_sensor_fault_boundary_witness :
    get_pen_temperature_mc (process sample_mem sample_idle_complete).2 = 251666 ∧
    get_pen_temperature_mc
      (_calculate_pen_temperature (process sample_mem sample_idle_complete).2 65001) = 0 :=
  ⟨by decide,
   (pen_sensor_fault_boundary (process sample_mem sample_idle_complete).2 65001).2.1
     (by decide)⟩

/-- C5: a completed idle cycle (measure state `MEASURE_IDLE`, flag set, reference
code above 0, `T110 ≠ T30`, no intermediate outside the signed 32-bit range)
stores `cpu_mv = (REF_CODE * 3300) / cr`, cpu temperature
`((ct * cpu_mv / 3300 - T30) * 80000) / (T110 - T30) + 30000`, supply voltage
`((sv * cpu_mv) / 0xFFF0 * 78) / 10`, pen temperature
`((pt * cpu_mv) / 0xFFF0 * 500000) / 3000` when `pt ≤ 65000` and 0 otherwise, and
pen current `(((pc - 0x7FF8) * cpu_mv) / 0xFFF0 * 1000) / 110`, every division
truncating and every formula using the `cpu_mv` of this cycle's `cr`, not the
cpu voltage stored before the call. -/
theorem idle_cycle_readings (mem : IoSysmem) (s : Adc)
    (hs : s._measure_state = State.MEASURE_IDLE) (hf : s.r_dma.TCIF = true)
    (_hcr : 0 < s._raw_measured_idle.cpu_reference.val)
    (_hT : Spec.T110 mem ≠ Spec.T30 mem)
    (hfit : Spec.idle_fits mem s._raw_measured_idle) :
    get_cpu_voltage_mv (process mem s).2
      = Int.tdiv (Spec.REF_CODE mem * 3300) s._raw_measured_idle.cpu_reference.val ∧
    get_cpu_temperature_mc (process mem s).2
      = Int.tdiv ((Int.tdiv (s._raw_measured_idle.cpu_temperature.val
            * Spec.cpu_mv mem s._raw_measured_idle.cpu_reference) 3300 - Spec.T30 mem) * 80000)
          (Spec.T110 mem - Spec.T30 mem) + 30000 ∧
    get_supply_voltage_mv (process mem s).2
      = Int.tdiv (Int.tdiv (s._raw_measured_idle.supply_voltage.val
          * Spec.cpu_mv mem s._raw_measured_idle.cpu_reference) 0xFFF0 * 78) 10 ∧
    get_pen_temperature_mc (process mem s).2
      = (if s._raw_measured_idle.pen_temperature.val ≤ 65000 then
          Int.tdiv (Int.tdiv (s._raw_measured_idle.pen_temperature.val
            * Spec.cpu_mv mem s._raw_measured_idle.cpu_reference) 0xFFF0 * 500000) 3000
        else 0) ∧
    get_pen_current_ma (process mem s).2
      = Int.tdiv (Int.tdiv (((s._raw_measured_idle.pen_current.val : Int) - 0x7FF8)
          * Spec.cpu_mv mem s._raw_measured_idle.cpu_reference) 0xFFF0 * 1000) 110 := by
  obtain ⟨h1, h2, h3, h4, h5⟩ := hfit
  have e1 := cpu_voltage_chain mem _ h1
  have e2 := cpu_temperature_chain mem _ _ h2
  have e3 := supply_voltage_chain _ _ h3
  have e4 := pen_temperature_chain _ _ h4
  have e5 := pen_current_chain _ _ h5
  rw [process_idle_set mem s hs hf]
  simp only [calculate_idle_eq, get_cpu_temperature_mc, get_pen_temperature_mc,
    get_cpu_voltage_mv, get_supply_voltage_mv, get_pen_current_ma, e1, e2, e3, e4, e5]
  exact ⟨rfl, rfl, rfl, rfl, rfl⟩

/-- Witness of C5: the sample idle cycle; its reference code 23824 gives a cpu
voltage of 3300 although the voltage stored before the call is 0. -/
theorem idle_cycle_readings_witness :
    get_cpu_voltage_mv sample_idle_complete = 0 ∧
    readings (process sample_mem sample_idle_complete).2
      = (3300, 7854, 38000, 251666, 3309, true) ∧
    get_cpu_voltage_mv (process sample_mem sample_idle_complete).2
      = Int.tdiv (Spec.REF_CODE sample_mem * 3300)
          sample_idle_complete._raw_measured_idle.cpu_reference.val :=
  ⟨by decide, by decide,
   (idle_cycle_readings sample_mem sample_idle_complete (by decide) (by decide) (by decide)
     (by decide) (by decide)).1⟩

theorem cpu_voltage_fits_of_calibrated (mem : IoSysmem) (hcal : mem.VREFINT_CAL.val < 4096)
    (r : U16) : Spec.cpu_voltage_fits mem r := by
  have h0 : (0 : Int) ≤ (mem.VREFINT_CAL.val : Int) := Int.ofNat_nonneg _
  have h1 : InInt32 (Spec.REF_CODE mem) := by
    unfold Spec.REF_CODE
    constructor <;> omega
  have h2 : InInt32 (Spec.REF_CODE mem * 3300) := by
    unfold Spec.REF_CODE
    constructor <;> omega
  have h3 : (0 : Int) ≤ Spec.REF_CODE mem * 3300 := by
    unfold Spec.REF_CODE
    omega
  exact ⟨h1, h2, inInt32_tdiv_of_nonneg h2 h3 (u16_cast_nonneg r)⟩

theorem cpu_voltage_of_calibrated (mem : IoSysmem) (hcal : mem.VREFINT_CAL.val < 4096)
    (s : Adc) (r : U16) :
    get_cpu_voltage_mv (_calculate_cpu_voltage mem s r) = Spec.cpu_mv mem r := by
  rw [calculate_cpu_voltage_eq]
  simp only [get_cpu_voltage_mv]
  exact cpu_voltage_chain mem r (cpu_voltage_fits_of_calibrated mem hcal r)

/-- C6: with a 12-bit `VREFINT_CAL` the cpu voltage `_calculate_cpu_voltage`
stores is `(REF_CODE * 3300) / raw` and it decreases as the raw reference code
grows: for `0 < a ≤ b` the reading for `b` is at most the reading for `a`. -/
theorem cpu_voltage_antitone (mem : IoSysmem) (hcal : mem.VREFINT_CAL.val < 4096)
    (s : Adc) (a b : U16) (ha : 0 < a.val) (hab : a.val ≤ b.val) :
    get_cpu_voltage_mv (_calculate_cpu_voltage mem s b)
        ≤ get_cpu_voltage_mv (_calculate_cpu_voltage mem s a) ∧
    get_cpu_voltage_mv (_calculate_cpu_voltage mem s a)
        = Int.tdiv (Spec.REF_CODE mem * 3300) a.val ∧
    get_cpu_voltage_mv (_calculate_cpu_voltage mem s b)
        = Int.tdiv (Spec.REF_CODE mem * 3300) b.val := by
  have ea := cpu_voltage_of_calibrated mem hcal s a
  have eb := cpu_voltage_of_calibrated mem hcal s b
  refine ⟨?_, ea, eb⟩
  rw [ea, eb]
  unfold Spec.cpu_mv Spec.REF_CODE
  have e : ((mem.VREFINT_CAL.val : Nat) : Int) * 16 * 3300
      = ((mem.VREFINT_CAL.val * 16 * 3300 : Nat) : Int) := by
    push_cast
    rfl
  rw [e, ← Int.ofNat_tdiv, ← Int.ofNat_tdiv]
  exact Int.ofNat_le.mpr (Nat.div_le_div_left hab ha)

/-- Witness of C6 at `VREFINT_CAL = 1489` and the codes 1500 and 23824. -/
theorem cpu_voltage_antitone_witness :
    get_cpu_voltage_mv (_calculate_cpu_voltage sample_mem init 23824)
        ≤ get_cpu_voltage_mv (_calculate_cpu_voltage sample_mem init 1500) :=
  (cpu_voltage_antitone sample_mem (by decide) init 1500 23824 (by decide) (by decide)).1

/-- C7, as stated, fails: with `VREFINT_CAL = 1489` and raw reference code 1500
the stored cpu voltage is 52412, not 52413. -/
theorem cpu_voltage_scenario_not_52413 :
    ishl ((sample_mem.VREFINT_CAL.val : Nat) : Int) 4 = 23824 ∧
    get_cpu_voltage_mv (_calculate_cpu_voltage sample_mem init 1500) = 52412 ∧
    get_cpu_voltage_mv (_calculate_cpu_voltage sample_mem init 1500) ≠ 52413 := by
  decide

/-- C7, amended: with `VREFINT_CAL = 1489` (so `REF_CODE = 1489 << 4 = 23824`) and
raw cpu-reference code 1500, `_calculate_cpu_voltage` computes
`(23824 * 3300) / 1500 = 52412` (the quotient 52412.8 truncated), the value
`get_cpu_voltage_mv` then returns, whatever the other calibration words and the
prior state. -/
theorem cpu_voltage_scenario (t30 t110 : U16) (s : Adc) :
    ishl (((1489 : U16).val : Nat) : Int) 4 = 23824 ∧
    Int.tdiv (23824 * 3300) 1500 = 52412 ∧
    get_cpu_voltage_mv (_calculate_cpu_voltage ⟨1489, t30, t110⟩ s 1500) = 52412 := by
  have h : idiv (imul (ishl (((1489 : U16).val : Nat) : Int) 4) 3300)
      (((1500 : U16).val : Nat) : Int) = 52412 := by decide
  refine ⟨by decide, by decide, ?_⟩
  rw [calculate_cpu_voltage_eq]
  simp only [get_cpu_voltage_mv]
  exact h

/-- C8: for the raw pen-current code `0x7FF8` (`0xFFF0 / 2`)
`_calculate_pen_current` stores a pen current of 0 mA, at a cpu voltage of 3300
and at every other cpu voltage. -/
theorem pen_current_centre_zero (s : Adc) :
    get_pen_current_ma (_calculate_pen_current s 0x7FF8) = 0 ∧
    get_pen_current_ma
      (_calculate_pen_current { s with _actual_cpu_voltage_mv := 3300 } 0x7FF8) = 0 := by
  have h : isub (((0x7FF8 : U16).val : Nat) : Int) (idiv MAX_VALUE 2) = 0 := by decide
  have z : ∀ mv : Int, idiv (imul (idiv (imul 0 mv) MAX_VALUE) 1000) 110 = 0 := by
    intro mv
    unfold imul idiv
    rw [Int.zero_mul, wrapInt32_zero, Int.zero_tdiv, wrapInt32_zero, Int.zero_mul,
      wrapInt32_zero, Int.zero_tdiv, wrapInt32_zero]
  constructor
  · rw [calculate_pen_current_eq]
    simp only [get_pen_current_ma, h, z]
  · rw [calculate_pen_current_eq]
    simp only [get_pen_current_ma, h, z]

theorem step_in_flight (mem : IoSysmem) (s : Adc) (op : Op) (hop : op.in_flight = true)
    (hf : s.r_dma.TCIF = false) :
    (step mem s op).r_dma.TCIF = false ∧ readings (step mem s op) = readings s := by
  cases op with
  | measure_idle_start => exact absurd hop (by decide)
  | measure_heat_start => exact absurd hop (by decide)
  | process =>
    show ((process mem s).2).r_dma.TCIF = false ∧ readings (process mem s).2 = readings s
    rw [process_of_flag_clear mem s hf]
    exact ⟨hf, rfl⟩
  | hw e =>
    cases e with
    | write_idle raw => exact ⟨hf, rfl⟩
    | write_heat raw => exact ⟨hf, rfl⟩
    | transfer_complete => exact absurd hop (by decide)

theorem run_in_flight (mem : IoSysmem) (ops : List Op) :
    ∀ s : Adc, s.r_dma.TCIF = false → (∀ op ∈ ops, op.in_flight = true) →
      (run mem s ops).r_dma.TCIF = false ∧ readings (run mem s ops) = readings s := by
  induction ops with
  | nil =>
    intro s hf _
    exact ⟨hf, rfl⟩
  | cons op ops ih =>
    intro s hf hops
    have h1 := step_in_flight mem s op (hops op (List.mem_cons_self op ops)) hf
    have h2 := ih (step mem s op) h1.1 (fun o ho => hops o (List.mem_cons_of_mem op ho))
    show (run mem (step mem s op) ops).r_dma.TCIF = false ∧
      readings (run mem (step mem s op) ops) = readings s
    exact ⟨h2.1, h2.2.trans h1.2⟩

/-- C9: the readings change only when a cycle completes. `measure_idle_start`,
`measure_heat_start`, and `process` with the transfer-complete flag clear (in
particular while measuring) each leave the six readings as they were, whatever
the raw buffers hold; and after a start, any sequence of `process` calls and of
DMA stores into the raw buffers, the flag never being raised, still leaves them
as they were before the start. -/
theorem readings_change_only_on_completion (mem : IoSysmem) (s : Adc) :
    readings (measure_idle_start s) = readings s ∧
    readings (measure_heat_start s) = readings s ∧
    (s.r_dma.TCIF = false → readings (process mem s).2 = readings s) ∧
    (∀ ops : List Op, (∀ op ∈ ops, op.in_flight = true) →
      readings (run mem (measure_idle_start s) ops) = readings s ∧
      readings (run mem (measure_heat_start s) ops) = readings s) := by
  refine ⟨measure_idle_start_readings s, measure_heat_start_readings s, ?_, ?_⟩
  · intro hf
    rw [process_of_flag_clear mem s hf]
  · intro ops hops
    have hi := run_in_flight mem ops (measure_idle_start s) (measure_idle_start_tcif s) hops
    have hh := run_in_flight mem ops (measure_heat_start s) (measure_heat_start_tcif s) hops
    exact ⟨hi.2.trans (measure_idle_start_readings s),
      hh.2.trans (measure_heat_start_readings s)⟩

/-- Witness of C9: after the completed sample cycle a new idle cycle is started,
the DMA engine stores other codes and `process` is called twice; the readings
are those of the completed cycle. -/
theorem readings_change_only_on_completion_witness :
    readings (run sample_mem (measure_idle_start (process sample_mem sample_idle_complete).2)
        [Op.process, Op.hw (HwEvent.write_idle sample_idle_fault), Op.process])
      = readings (process sample_mem sample_idle_complete).2 :=
  ((readings_change_only_on_completion sample_mem
      (process sample_mem sample_idle_complete).2).2.2.2
    [Op.process, Op.hw (HwEvent.write_idle sample_idle_fault), Op.process]
    (by decide)).1

/-- C10: whatever the prior state, a stale transfer-complete flag included,
after `measure_idle_start` (resp. `measure_heat_start`) the flag is clear, the
channel is programmed for 5 (resp. 3) transfers from the ADC data register into
the idle (resp. heat) buffer, enabled, memory-incrementing, with 16-bit
peripheral and memory sizes, and `ADSTART` is set; a `process` called before the
hardware raises the flag returns `MEASURE_IDLE` (resp. `MEASURE_HEAT`) and
changes nothing, so no calibration runs. -/
theorem start_programs_dma (mem : IoSysmem) (s : Adc) :
    (measure_idle_start s).r_dma.TCIF = false ∧
    (measure_idle_start (hw_step s HwEvent.transfer_complete)).r_dma.TCIF = false ∧
    (measure_idle_start s).r_dma.CHANNEL =
      { CCR := { EN := true, DIR := false, CIRC := false, MINC := true,
                 PSIZE := Size.SIZE_16, MSIZE := Size.SIZE_16, PL := Pl.LOW },
        CMAR := Addr.raw_measured_idle, CPAR := Addr.adc_dr, CNDTR := 5 } ∧
    (measure_idle_start s).r_adc.ADSTART = true ∧
    process mem (measure_idle_start s) = (State.MEASURE_IDLE, measure_idle_start s) ∧
    readings (process mem (measure_idle_start s)).2 = readings s ∧
    (measure_heat_start s).r_dma.TCIF = false ∧
    (measure_heat_start (hw_step s HwEvent.transfer_complete)).r_dma.TCIF = false ∧
    (measure_heat_start s).r_dma.CHANNEL =
      { CCR := { EN := true, DIR := false, CIRC := false, MINC := true,
                 PSIZE := Size.SIZE_16, MSIZE := Size.SIZE_16, PL := Pl.LOW },
        CMAR := Addr.raw_measured_heat, CPAR := Addr.adc_dr, CNDTR := 3 } ∧
    (measure_heat_start s).r_adc.ADSTART = true ∧
    process mem (measure_heat_start s) = (State.MEASURE_HEAT, measure_heat_start s) ∧
    readings (process mem (measure_heat_start s)).2 = readings s := by
  have pi := process_idle_clear mem (measure_idle_start s)
    (measure_idle_start_measure_state s) (measure_idle_start_tcif s)
  have ph := process_heat_clear mem (measure_heat_start s)
    (measure_heat_start_measure_state s) (measure_heat_start_tcif s)
  refine ⟨measure_idle_start_tcif s, measure_idle_start_tcif _, ?_, ?_, pi, ?_,
    measure_heat_start_tcif s, measure_heat_start_tcif _, ?_, ?_, ph, ?_⟩
  · unfold measure_idle_start _start_dma_measure
    rfl
  · unfold measure_idle_start _start_dma_measure
    rfl
  · rw [pi]
    exact measure_idle_start_readings s
  · unfold measure_heat_start _start_dma_measure
    rfl
  · unfold measure_heat_start _start_dma_measure
    rfl
  · rw [ph]
    exact measure_heat_start_readings s

/-! ## Ranges of the intermediates -/

theorem tdiv_bounds_of_abs_le (a b N : Int) (hb : 0 < b) (h1 : -N ≤ a) (h2 : a ≤ N) :
    -(N / b) ≤ Int.tdiv a b ∧ Int.tdiv a b ≤ N / b := by
  rw [tdiv_eq_ite a b (Int.le_of_lt hb)]
  have hN : 0 ≤ N := by omega
  split
  · rename_i h
    have h3 : a / b ≤ N / b := Int.ediv_le_ediv hb h2
    have h4 : 0 ≤ a / b := Int.ediv_nonneg h (Int.le_of_lt hb)
    have h5 : 0 ≤ N / b := Int.ediv_nonneg hN (Int.le_of_lt hb)
    omega
  · rename_i h
    have h3 : (-a) / b ≤ N / b := Int.ediv_le_ediv hb (by omega)
    have h4 : 0 ≤ (-a) / b := Int.ediv_nonneg (by omega) (Int.le_of_lt hb)
    have h5 : 0 ≤ N / b := Int.ediv_nonneg hN (Int.le_of_lt hb)
    omega

theorem u16_mul_bounds (r : U16) (mv : Int) (h0 : 0 ≤ mv) (h1 : mv ≤ 4329) :
    0 ≤ (r.val : Int) * mv ∧ (r.val : Int) * mv ≤ 283701015 := by
  have hr0 := u16_cast_nonneg r
  have hr1 := u16_cast_le r
  constructor
  · exact Int.mul_nonneg hr0 h0
  · calc (r.val : Int) * mv ≤ 65535 * 4329 := Int.mul_le_mul hr1 h1 h0 (by omega)
      _ = 283701015 := by decide

theorem supply_voltage_fits_of_range (mv : Int) (r : U16) (h0 : 0 ≤ mv) (h1 : mv ≤ 4329) :
    Spec.supply_voltage_fits mv r := by
  obtain ⟨p0, p1⟩ := u16_mul_bounds r mv h0 h1
  have q := tdiv_bounds_of_abs_le ((r.val : Int) * mv) 0xFFF0 283701015 (by decide)
    (by omega) p1
  have q0 : 0 ≤ Int.tdiv ((r.val : Int) * mv) 0xFFF0 := Int.tdiv_nonneg p0 (by decide)
  have e : (283701015 : Int) / 0xFFF0 = 4329 := by decide
  rw [e] at q
  have w := tdiv_bounds_of_abs_le (Int.tdiv ((r.val : Int) * mv) 0xFFF0 * 78) 10 337740
    (by decide) (by omega) (by omega)
  have e2 : (337740 : Int) / 10 = 33774 := by decide
  rw [e2] at w
  unfold Spec.supply_voltage_fits Spec.supply_voltage
  refine ⟨⟨?_, ?_⟩, ⟨?_, ?_⟩, ⟨?_, ?_⟩, ⟨?_, ?_⟩⟩ <;> omega

theorem pen_temperature_fits_of_range (mv : Int) (r : U16) (h0 : 0 ≤ mv) (h1 : mv ≤ 4329) :
    Spec.pen_temperature_fits mv r := by
  intro hr
  have hr0 := u16_cast_nonneg r
  have hr1 : (r.val : Int) ≤ 65000 := by omega
  have p0 : 0 ≤ (r.val : Int) * mv := Int.mul_nonneg hr0 h0
  have p1 : (r.val : Int) * mv ≤ 281385000 := by
    calc (r.val : Int) * mv ≤ 65000 * 4329 := Int.mul_le_mul hr1 h1 h0 (by omega)
      _ = 281385000 := by decide
  have q := tdiv_bounds_of_abs_le ((r.val : Int) * mv) 0xFFF0 281385000 (by decide)
    (by omega) p1
  have q0 : 0 ≤ Int.tdiv ((r.val : Int) * mv) 0xFFF0 := Int.tdiv_nonneg p0 (by decide)
  have e : (281385000 : Int) / 0xFFF0 = 4294 := by decide
  rw [e] at q
  have w := tdiv_bounds_of_abs_le (Int.tdiv ((r.val : Int) * mv) 0xFFF0 * 500000) 3000
    2147000000 (by decide) (by omega) (by omega)
  have e2 : (2147000000 : Int) / 3000 = 715666 := by decide
  rw [e2] at w
  unfold Spec.pen_temperature_ok
  refine ⟨⟨?_, ?_⟩, ⟨?_, ?_⟩, ⟨?_, ?_⟩, ⟨?_, ?_⟩⟩ <;> omega

theorem pen_current_fits_of_range (mv : Int) (r : U16) (h0 : 0 ≤ mv) (h1 : mv ≤ 4329) :
    Spec.pen_current_fits mv r := by
  have hr0 := u16_cast_nonneg r
  have hr1 := u16_cast_le r
  have d0 : -32760 ≤ (r.val : Int) - 0x7FF8 := by omega
  have d1 : (r.val : Int) - 0x7FF8 ≤ 32775 := by omega
  have p1 : ((r.val : Int) - 0x7FF8) * mv ≤ 141882975 := by
    calc ((r.val : Int) - 0x7FF8) * mv ≤ 32775 * mv := Int.mul_le_mul_of_nonneg_right d1 h0
      _ ≤ 32775 * 4329 := Int.mul_le_mul_of_nonneg_left h1 (by decide)
      _ = 141882975 := by decide
  have p0 : -141882975 ≤ ((r.val : Int) - 0x7FF8) * mv := by
    have a1 : -32760 * mv ≤ ((r.val : Int) - 0x7FF8) * mv :=
      Int.mul_le_mul_of_nonneg_right d0 h0
    have a2 : (32760 : Int) * mv ≤ 32760 * 4329 := Int.mul_le_mul_of_nonneg_left h1 (by decide)
    have a3 : (32760 : Int) * 4329 = 141818040 := by decide
    have a4 : (-32760 : Int) * mv = -(32760 * mv) := Int.neg_mul 32760 mv
    omega
  have q := tdiv_bounds_of_abs_le (((r.val : Int) - 0x7FF8) * mv) 0xFFF0 141882975 (by decide)
    p0 p1
  have e : (141882975 : Int) / 0xFFF0 = 2165 := by decide
  rw [e] at q
  have w := tdiv_bounds_of_abs_le (Int.tdiv (((r.val : Int) - 0x7FF8) * mv) 0xFFF0 * 1000) 110
    2165000 (by decide) (by omega) (by omega)
  have e2 : (2165000 : Int) / 110 = 19681 := by decide
  rw [e2] at w
  unfold Spec.pen_current_fits Spec.pen_current
  refine ⟨⟨?_, ?_⟩, ⟨?_, ?_⟩, ⟨?_, ?_⟩, ⟨?_, ?_⟩, ⟨?_, ?_⟩⟩ <;> omega

theorem ediv_le_ediv_of_divisor_le (N k b : Int) (hN : 0 ≤ N) (hk : 0 < k) (hkb : k ≤ b) :
    N / b ≤ N / k := by
  have hb : 0 < b := by omega
  have h1 : 0 ≤ N / b := Int.ediv_nonneg hN (Int.le_of_lt hb)
  have h2 : N / b * b ≤ N := Int.ediv_mul_le N (by omega)
  have h3 : N / b * k ≤ N / b * b := Int.mul_le_mul_of_nonneg_left hkb h1
  exact Int.le_ediv_of_mul_le hk (Int.le_trans h3 h2)

theorem tdiv_bounds_of_divisor_ge (a b N k : Int) (hk : 0 < k) (hb : k ≤ b ∨ b ≤ -k)
    (h1 : -N ≤ a) (h2 : a ≤ N) : -(N / k) ≤ Int.tdiv a b ∧ Int.tdiv a b ≤ N / k := by
  have hN : 0 ≤ N := by omega
  rcases hb with hb | hb
  · have q := tdiv_bounds_of_abs_le a b N (by omega) h1 h2
    have m := ediv_le_ediv_of_divisor_le N k b hN hk hb
    omega
  · have q := tdiv_bounds_of_abs_le a (-b) N (by omega) h1 h2
    have m := ediv_le_ediv_of_divisor_le N k (-b) hN hk (by omega)
    have e : Int.tdiv a b = -(Int.tdiv a (-b)) := by
      rw [Int.tdiv_neg, Int.neg_neg]
    omega

theorem cpu_temperature_fits_of_range (mem : IoSysmem) (mv : Int) (r : U16)
    (h30 : mem.TEMP30_CAL.val < 4096) (h110 : mem.TEMP110_CAL.val < 4096)
    (hT : Spec.T110 mem ≠ Spec.T30 mem) (h0 : 0 ≤ mv) (h1 : mv ≤ 4329)
    (hprod : InInt32 ((Int.tdiv (r.val * mv) 3300 - Spec.T30 mem) * 80000)) :
    Spec.cpu_temperature_fits mem mv r := by
  obtain ⟨p0, p1⟩ := u16_mul_bounds r mv h0 h1
  have q := tdiv_bounds_of_abs_le ((r.val : Int) * mv) 3300 283701015 (by decide)
    (by omega) p1
  have q0 : 0 ≤ Int.tdiv ((r.val : Int) * mv) 3300 := Int.tdiv_nonneg p0 (by decide)
  have e : (283701015 : Int) / 3300 = 85970 := by decide
  rw [e] at q
  have c30 : (0 : Int) ≤ (mem.TEMP30_CAL.val : Int) := Int.ofNat_nonneg _
  have c110 : (0 : Int) ≤ (mem.TEMP110_CAL.val : Int) := Int.ofNat_nonneg _
  unfold Spec.T110 Spec.T30 at hT
  unfold Spec.T30 at hprod
  obtain ⟨hp0, hp1⟩ := hprod
  have w := tdiv_bounds_of_divisor_ge
    ((Int.tdiv ((r.val : Int) * mv) 3300 - (mem.TEMP30_CAL.val : Int) * 16) * 80000)
    ((mem.TEMP110_CAL.val : Int) * 16 - (mem.TEMP30_CAL.val : Int) * 16) 2147483648 16
    (by decide) (by omega) (by omega) (by omega)
  have e2 : (2147483648 : Int) / 16 = 134217728 := by decide
  rw [e2] at w
  unfold Spec.cpu_temperature_fits Spec.cpu_temperature Spec.T110 Spec.T30
  refine ⟨⟨?_, ?_⟩, ⟨?_, ?_⟩, ⟨?_, ?_⟩, ⟨?_, ?_⟩, ⟨?_, ?_⟩, ⟨?_, ?_⟩, ⟨?_, ?_⟩, ⟨?_, ?_⟩,
    ⟨?_, ?_⟩⟩ <;> omega

/-- C11, as stated, fails: with the 12-bit, distinct calibration words 1800 and
1300, a cpu voltage of 3300 and the raw code 65535, the product by 80000 is
2938800000, outside the signed 32-bit range; the routine stores 199520 while the
formula over the unbounded integers gives -337350. -/
theorem cpu_temperature_overflows :
    sample_mem.TEMP30_CAL.val < 4096 ∧ sample_mem.TEMP110_CAL.val < 4096 ∧
    Spec.T110 sample_mem ≠ Spec.T30 sample_mem ∧
    (Int.tdiv (((65535 : U16).val : Int) * 3300) 3300 - Spec.T30 sample_mem) * 80000
      = 2938800000 ∧
    ¬ Spec.cpu_temperature_fits sample_mem 3300 65535 ∧
    get_cpu_temperature_mc
      (_calculate_cpu_temperature sample_mem { init with _actual_cpu_voltage_mv := 3300 } 65535)
      = 199520 ∧
    Spec.cpu_temperature sample_mem 3300 65535 = -337350 := by
  decide

/-- C11, amended: for 12-bit, distinct calibration words, a cpu voltage within
0 .. 4329 and a raw code for which the product `(t - T30) * 80000` (with
`t = raw * cpu_mv / 3300`) is in the signed 32-bit range, every intermediate of
`_calculate_cpu_temperature` is in that range and the stored cpu temperature is
`(t - T30) * 80000 / (T110 - T30) + 30000` over the unbounded integers, with
truncating division. -/
theorem cpu_temperature_exact_of_range (mem : IoSysmem) (s : Adc) (r : U16)
    (h30 : mem.TEMP30_CAL.val < 4096) (h110 : mem.TEMP110_CAL.val < 4096)
    (hT : Spec.T110 mem ≠ Spec.T30 mem)
    (h0 : 0 ≤ s._actual_cpu_voltage_mv) (h1 : s._actual_cpu_voltage_mv ≤ 4329)
    (hprod : InInt32 ((Int.tdiv (r.val * s._actual_cpu_voltage_mv) 3300 - Spec.T30 mem)
      * 80000)) :
    Spec.cpu_temperature_fits mem s._actual_cpu_voltage_mv r ∧
    get_cpu_temperature_mc (_calculate_cpu_temperature mem s r)
      = Int.tdiv ((Int.tdiv (r.val * s._actual_cpu_voltage_mv) 3300 - Spec.T30 mem) * 80000)
          (Spec.T110 mem - Spec.T30 mem) + 30000 := by
  have hfit := cpu_temperature_fits_of_range mem s._actual_cpu_voltage_mv r h30 h110 hT h0 h1
    hprod
  refine ⟨hfit, ?_⟩
  rw [calculate_cpu_temperature_eq]
  exact cpu_temperature_chain mem s._actual_cpu_voltage_mv r hfit

/-- Witness of C11 (amended): the sample calibration words, the cpu voltage 3300
and the raw code 28000 give 38000 millidegrees. -/
theorem cpu_temperature_exact_of_range_witness :
    get_cpu_temperature_mc
      (_calculate_cpu_temperature sample_mem (process sample_mem sample_idle_complete).2 28000)
      = Int.tdiv ((Int.tdiv (((28000 : U16).val : Int)
            * (process sample_mem sample_idle_complete).2._actual_cpu_voltage_mv) 3300
          - Spec.T30 sample_mem) * 80000)
          (Spec.T110 sample_mem - Spec.T30 sample_mem) + 30000 :=
  (cpu_temperature_exact_of_range sample_mem (process sample_mem sample_idle_complete).2 28000
    (by decide) (by decide) (by decide) (by decide) (by decide) (by decide)).2

/-- C12: for a cpu voltage within 0 .. 4329 and any 16-bit raw code, every
intermediate of `_calculate_supply_voltage`, `_calculate_pen_temperature` and
`_calculate_pen_current` is in the signed 32-bit range, so the stored supply
voltage, pen temperature and pen current are the formulas over the unbounded
integers with truncating division. The bound is tight for the pen temperature:
at cpu voltage 4330 and raw code 65000 the product by 500000 is 2147500000,
above `2 ^ 31 - 1`. -/
theorem scaled_readings_exact_of_range (s : Adc) (r : U16)
    (h0 : 0 ≤ s._actual_cpu_voltage_mv) (h1 : s._actual_cpu_voltage_mv ≤ 4329) :
    Spec.supply_voltage_fits s._actual_cpu_voltage_mv r ∧
    Spec.pen_temperature_fits s._actual_cpu_voltage_mv r ∧
    Spec.pen_current_fits s._actual_cpu_voltage_mv r ∧
    get_supply_voltage_mv (_calculate_supply_voltage s r)
      = Int.tdiv (Int.tdiv (r.val * s._actual_cpu_voltage_mv) 0xFFF0 * 78) 10 ∧
    get_pen_temperature_mc (_calculate_pen_temperature s r)
      = (if r.val ≤ 65000 then
          Int.tdiv (Int.tdiv (r.val * s._actual_cpu_voltage_mv) 0xFFF0 * 500000) 3000
        else 0) ∧
    get_pen_current_ma (_calculate_pen_current s r)
      = Int.tdiv (Int.tdiv (((r.val : Int) - 0x7FF8) * s._actual_cpu_voltage_mv) 0xFFF0 * 1000)
          110 ∧
    Int.tdiv (((65000 : U16).val : Int) * 4330) 0xFFF0 * 500000 = 2147500000 ∧
    ¬ Spec.pen_temperature_fits 4330 65000 := by
  have f1 := supply_voltage_fits_of_range s._actual_cpu_voltage_mv r h0 h1
  have f2 := pen_temperature_fits_of_range s._actual_cpu_voltage_mv r h0 h1
  have f3 := pen_current_fits_of_range s._actual_cpu_voltage_mv r h0 h1
  refine ⟨f1, f2, f3, ?_, ?_, ?_, by decide, by decide⟩
  · rw [calculate_supply_voltage_eq]
    exact supply_voltage_chain s._actual_cpu_voltage_mv r f1
  · rw [calculate_pen_temperature_eq]
    exact pen_temperature_chain s._actual_cpu_voltage_mv r f2
  · rw [calculate_pen_current_eq]
    exact pen_current_chain s._actual_cpu_voltage_mv r f3

/-- Witness of C12: at the largest cpu voltage of the range, 4329, and the
largest healthy pen-temperature code, 65000, the stored pen temperature is the
formula's value. -/
theorem scaled_readings_exact_of_range_witness :
    get_pen_temperature_mc
      (_calculate_pen_temperature { init with _actual_cpu_voltage_mv := 4329 } 65000)
      = (if (65000 : U16).val ≤ 65000 then
          Int.tdiv (Int.tdiv ((65000 : U16).val
            * ({ init with _actual_cpu_voltage_mv := 4329 } : Adc)._actual_cpu_voltage_mv)
            0xFFF0 * 500000) 3000
        else 0) :=
  (scaled_readings_exact_of_range { init with _actual_cpu_voltage_mv := 4329 } 65000
    (by decide) (by decide)).2.2.2.2.1

/-- C13: a pen-sensor fault is absorbed locally. Two completed idle cycles from
the same prior state whose buffers differ in the pen-temperature code only give
the same cpu voltage, cpu temperature, supply voltage and pen current; with a
code above 65000 the pen temperature becomes 0 and the sensor flag false, and
the pen current is the one of the other cycle (it is computed after the early
return). -/
theorem pen_fault_absorbed (mem : IoSysmem) (s : Adc) (raw : RawMeasuredIdle) (pt : U16)
    (hs : s._measure_state = State.MEASURE_IDLE) (hf : s.r_dma.TCIF = true)
    (_hcr : 0 < raw.cpu_reference.val) (_hT : Spec.T110 mem ≠ Spec.T30 mem) :
    get_cpu_voltage_mv
        (process mem (hw_step s (HwEvent.write_idle { raw with pen_temperature := pt }))).2
      = get_cpu_voltage_mv (process mem (hw_step s (HwEvent.write_idle raw))).2 ∧
    get_cpu_temperature_mc
        (process mem (hw_step s (HwEvent.write_idle { raw with pen_temperature := pt }))).2
      = get_cpu_temperature_mc (process mem (hw_step s (HwEvent.write_idle raw))).2 ∧
    get_supply_voltage_mv
        (process mem (hw_step s (HwEvent.write_idle { raw with pen_temperature := pt }))).2
      = get_supply_voltage_mv (process mem (hw_step s (HwEvent.write_idle raw))).2 ∧
    get_pen_current_ma
        (process mem (hw_step s (HwEvent.write_idle { raw with pen_temperature := pt }))).2
      = get_pen_current_ma (process mem (hw_step s (HwEvent.write_idle raw))).2 ∧
    (65000 < pt.val →
      get_pen_temperature_mc
          (process mem (hw_step s (HwEvent.write_idle { raw with pen_temperature := pt }))).2
        = 0 ∧
      is_pen_sensor_ok
          (process mem (hw_step s (HwEvent.write_idle { raw with pen_temperature := pt }))).2
        = false) := by
  have p1 := process_idle_set mem (hw_step s (HwEvent.write_idle raw)) hs hf
  have p2 := process_idle_set mem
    (hw_step s (HwEvent.write_idle { raw with pen_temperature := pt })) hs hf
  rw [p1, p2]
  simp only [calculate_idle_eq, hw_step, get_cpu_voltage_mv, get_cpu_temperature_mc,
    get_supply_voltage_mv, get_pen_current_ma, get_pen_temperature_mc, is_pen_sensor_ok]
  refine ⟨trivial, trivial, trivial, trivial, ?_⟩
  intro h
  have h2 : ¬ (pt.val ≤ 65000) := by omega
  simp only [if_neg h2, decide_eq_false_iff_not]
  exact ⟨trivial, h2⟩

/-- Witness of C13: the sample idle cycle and the same cycle with the
pen-temperature code 65001. -/
theorem pen_fault_absorbed_witness :
    readings (process sample_mem
        (hw_step sample_idle_complete (HwEvent.write_idle sample_idle))).2
      = (3300, 7854, 38000, 251666, 3309, true) ∧
    readings (process sample_mem
        (hw_step sample_idle_complete (HwEvent.write_idle sample_idle_fault))).2
      = (3300, 7854, 38000, 0, 3309, false) ∧
    sample_idle_fault = { sample_idle with pen_temperature := 65001 } ∧
    get_pen_current_ma (process sample_mem (hw_step sample_idle_complete
        (HwEvent.write_idle { sample_idle with pen_temperature := 65001 }))).2
      = get_pen_current_ma (process sample_mem
          (hw_step sample_idle_complete (HwEvent.write_idle sample_idle))).2 :=
  ⟨by decide, by decide, by decide,
   (pen_fault_absorbed sample_mem sample_idle_complete sample_idle 65001 (by decide)
     (by decide) (by decide) (by decide)).2.2.2.1⟩

theorem tdiv_nonpos_of_nonpos (a b : Int) (ha : a ≤ 0) (hb : 0 ≤ b) : Int.tdiv a b ≤ 0 := by
  have h : 0 ≤ Int.tdiv (-a) b := Int.tdiv_nonneg (by omega) hb
  rw [Int.neg_tdiv] at h
  omega

/-- C14: the sign of the pen current tells the side of the centre code. For a cpu
voltage that is not negative and a raw code whose intermediates stay in the
signed 32-bit range, `_calculate_pen_current` stores a reading `≥ 0` when the
code is at least `0x7FF8` and a reading `≤ 0` when it is at most `0x7FF8`. -/
theorem pen_current_sign (s : Adc) (r : U16) (h0 : 0 ≤ s._actual_cpu_voltage_mv)
    (hfit : Spec.pen_current_fits s._actual_cpu_voltage_mv r) :
    (0x7FF8 ≤ r.val → 0 ≤ get_pen_current_ma (_calculate_pen_current s r)) ∧
    (r.val ≤ 0x7FF8 → get_pen_current_ma (_calculate_pen_current s r) ≤ 0) := by
  have e : get_pen_current_ma (_calculate_pen_current s r)
      = Spec.pen_current s._actual_cpu_voltage_mv r := by
    rw [calculate_pen_current_eq]
    exact pen_current_chain s._actual_cpu_voltage_mv r hfit
  rw [e]
  unfold Spec.pen_current
  constructor
  · intro h
    have d0 : (0 : Int) ≤ (r.val : Int) - 0x7FF8 := by omega
    have p0 := Int.mul_nonneg d0 h0
    have q0 := Int.tdiv_nonneg p0 (by decide : (0 : Int) ≤ 0xFFF0)
    have m0 := Int.mul_nonneg q0 (by decide : (0 : Int) ≤ 1000)
    exact Int.tdiv_nonneg m0 (by decide)
  · intro h
    have d0 : (r.val : Int) - 0x7FF8 ≤ 0 := by omega
    have p0 : ((r.val : Int) - 0x7FF8) * s._actual_cpu_voltage_mv ≤ 0 :=
      Int.mul_nonpos_of_nonpos_of_nonneg d0 h0
    have q0 := tdiv_nonpos_of_nonpos _ 0xFFF0 p0 (by decide)
    have m0 : Int.tdiv (((r.val : Int) - 0x7FF8) * s._actual_cpu_voltage_mv) 0xFFF0 * 1000 ≤ 0 :=
      Int.mul_nonpos_of_nonpos_of_nonneg q0 (by decide)
    exact tdiv_nonpos_of_nonpos _ 110 m0 (by decide)

/-- Witness of C14: at a cpu voltage of 3300 the code 40000, above the centre,
gives a reading that is not negative. -/
theorem pen_current_sign_witness :
    0 ≤ get_pen_current_ma
      (_calculate_pen_current { init with _actual_cpu_voltage_mv := 3300 } 40000) :=
  (pen_current_sign { init with _actual_cpu_voltage_mv := 3300 } 40000 (by decide)
    (by decide)).1 (by decide)

/-- C18: the pen current is antisymmetric about the centre code. For a cpu voltage
within 0 .. 4329 and `0 ≤ d ≤ 0x7FF8`, the reading for the raw code `0x7FF8 + d`
is the negation of the reading for the raw code `0x7FF8 - d`. -/
theorem pen_current_antisymmetric (s : Adc) (d : Nat) (r1 r2 : U16)
    (h0 : 0 ≤ s._actual_cpu_voltage_mv) (h1 : s._actual_cpu_voltage_mv ≤ 4329)
    (hd : d ≤ 0x7FF8) (hr1 : r1.val = 0x7FF8 + d) (hr2 : r2.val = 0x7FF8 - d) :
    get_pen_current_ma (_calculate_pen_current s r1)
      = -get_pen_current_ma (_calculate_pen_current s r2) := by
  have e1 : get_pen_current_ma (_calculate_pen_current s r1)
      = Spec.pen_current s._actual_cpu_voltage_mv r1 := by
    rw [calculate_pen_current_eq]
    exact pen_current_chain _ r1 (pen_current_fits_of_range _ r1 h0 h1)
  have e2 : get_pen_current_ma (_calculate_pen_current s r2)
      = Spec.pen_current s._actual_cpu_voltage_mv r2 := by
    rw [calculate_pen_current_eq]
    exact pen_current_chain _ r2 (pen_current_fits_of_range _ r2 h0 h1)
  rw [e1, e2]
  unfold Spec.pen_current
  have a1 : (r1.val : Int) - 0x7FF8 = (d : Int) := by omega
  have a2 : (r2.val : Int) - 0x7FF8 = -(d : Int) := by omega
  rw [a1, a2, Int.neg_mul, Int.neg_tdiv, Int.neg_mul, Int.neg_tdiv, Int.neg_neg]

/-- Witness of C18: at a cpu voltage of 3300 the codes `0x7FF8 + 7240` and
`0x7FF8 - 7240` give 3309 and -3309. -/
theorem pen_current_antisymmetric_witness :
    get_pen_current_ma
        (_calculate_pen_current { init with _actual_cpu_voltage_mv := 3300 } 40000) = 3309 ∧
    get_pen_current_ma
        (_calculate_pen_current { init with _actual_cpu_voltage_mv := 3300 } 25520) = -3309 ∧
    get_pen_current_ma
        (_calculate_pen_current { init with _actual_cpu_voltage_mv := 3300 } 40000)
      = -get_pen_current_ma
          (_calculate_pen_current { init with _actual_cpu_voltage_mv := 3300 } 25520) :=
  ⟨by decide, by decide,
   pen_current_antisymmetric { init with _actual_cpu_voltage_mv := 3300 } 7240 40000 25520
     (by decide) (by decide) (by decide) (by decide) (by decide)⟩

/-- C17: the two-point calibration reproduces its reference points. With a cpu
voltage of 3300, calibration codes `T30 ≠ T110` with
`|T110 - T30| * 80000 ≤ 2 ^ 31 - 1`, `_calculate_cpu_temperature` stores exactly
30000 for the raw code `T30` and exactly 110000 for the raw code `T110`. -/
theorem cpu_temperature_reference_points (mem : IoSysmem) (s : Adc) (r30 r110 : U16)
    (hmv : s._actual_cpu_voltage_mv = 3300)
    (h30 : (r30.val : Int) = Spec.T30 mem) (h110 : (r110.val : Int) = Spec.T110 mem)
    (hT : Spec.T30 mem ≠ Spec.T110 mem)
    (hspan : |Spec.T110 mem - Spec.T30 mem| * 80000 ≤ 2147483647) :
    get_cpu_temperature_mc (_calculate_cpu_temperature mem s r30) = 30000 ∧
    get_cpu_temperature_mc (_calculate_cpu_temperature mem s r110) = 110000 := by
  have hspan2 : |Spec.T110 mem - Spec.T30 mem| ≤ 26843 := by omega
  obtain ⟨sp0, sp1⟩ := abs_le.mp hspan2
  have c30 : (mem.TEMP30_CAL.val : Int) < 4096 := by
    have := r30.isLt
    unfold Spec.T30 at h30
    omega
  have c110 : (mem.TEMP110_CAL.val : Int) < 4096 := by
    have := r110.isLt
    unfold Spec.T110 at h110
    omega
  have k30 : Int.tdiv ((r30.val : Int) * 3300) 3300 = Spec.T30 mem := by
    rw [Int.mul_tdiv_cancel _ (by decide), h30]
  have k110 : Int.tdiv ((r110.val : Int) * 3300) 3300 = Spec.T110 mem := by
    rw [Int.mul_tdiv_cancel _ (by decide), h110]
  have hd : Spec.T110 mem - Spec.T30 mem ≠ 0 := by omega
  have f30 : Spec.cpu_temperature_fits mem 3300 r30 :=
    cpu_temperature_fits_of_range mem 3300 r30 (by omega) (by omega) (Ne.symm hT)
      (by decide) (by decide) (by rw [k30]; constructor <;> omega)
  have f110 : Spec.cpu_temperature_fits mem 3300 r110 :=
    cpu_temperature_fits_of_range mem 3300 r110 (by omega) (by omega) (Ne.symm hT)
      (by decide) (by decide) (by rw [k110]; constructor <;> omega)
  constructor
  · rw [calculate_cpu_temperature_eq, hmv]
    show iadd _ _ = 30000
    rw [cpu_temperature_chain mem 3300 r30 f30]
    unfold Spec.cpu_temperature
    rw [k30, Int.sub_self, Int.zero_mul, Int.zero_tdiv]
    rfl
  · rw [calculate_cpu_temperature_eq, hmv]
    show iadd _ _ = 110000
    rw [cpu_temperature_chain mem 3300 r110 f110]
    unfold Spec.cpu_temperature
    rw [k110, Int.mul_tdiv_cancel_left _ hd]
    rfl

/-- Witness of C17: the sample calibration words (`T30 = 28800`, `T110 = 20800`). -/
theorem cpu_temperature_reference_points_witness :
    get_cpu_temperature_mc
        (_calculate_cpu_temperature sample_mem { init with _actual_cpu_voltage_mv := 3300 } 28800)
      = 30000 ∧
    get_cpu_temperature_mc
        (_calculate_cpu_temperature sample_mem { init with _actual_cpu_voltage_mv := 3300 } 20800)
      = 110000 :=
  cpu_temperature_reference_points sample_mem { init with _actual_cpu_voltage_mv := 3300 }
    28800 20800 (by decide) (by decide) (by decide) (by decide) (by decide)

theorem calculate_idle_pen_invariant (mem : IoSysmem) (s : Adc) :
    (_calculate_idle mem s)._pen_sensor_ok = false →
      (_calculate_idle mem s)._actual_pen_temperature_mc = 0 := by
  rw [calculate_idle_eq]
  simp only [decide_eq_false_iff_not]
  intro h
  rw [if_neg h]

theorem calculate_heat_pen_fields (mem : IoSysmem) (s : Adc) :
    (_calculate_heat mem s)._pen_sensor_ok = s._pen_sensor_ok ∧
    (_calculate_heat mem s)._actual_pen_temperature_mc = s._actual_pen_temperature_mc := by
  rw [calculate_heat_eq]
  exact ⟨rfl, rfl⟩

theorem process_pen_invariant (mem : IoSysmem) (s : Adc)
    (h : s._pen_sensor_ok = false → s._actual_pen_temperature_mc = 0) :
    (process mem s).2._pen_sensor_ok = false →
      (process mem s).2._actual_pen_temperature_mc = 0 := by
  cases hf : s.r_dma.TCIF
  · rw [process_of_flag_clear mem s hf]
    exact h
  · cases hs : s._measure_state
    · rw [process_of_done mem s hs]
      exact h
    · rw [process_idle_set mem s hs hf]
      exact calculate_idle_pen_invariant mem _
    · rw [process_heat_set mem s hs hf]
      have k := calculate_heat_pen_fields mem
        { s with r_dma := s.r_dma.clear_flags, _measure_state := State.DONE }
      show (_calculate_heat mem _)._pen_sensor_ok = false →
        (_calculate_heat mem _)._actual_pen_temperature_mc = 0
      rw [k.1, k.2]
      exact h

theorem step_pen_invariant (mem : IoSysmem) (s : Adc) (op : Op)
    (h : s._pen_sensor_ok = false → s._actual_pen_temperature_mc = 0) :
    (step mem s op)._pen_sensor_ok = false → (step mem s op)._actual_pen_temperature_mc = 0 := by
  cases op with
  | measure_idle_start =>
    show (measure_idle_start s)._pen_sensor_ok = false →
      (measure_idle_start s)._actual_pen_temperature_mc = 0
    unfold measure_idle_start _start_dma_measure
    exact h
  | measure_heat_start =>
    show (measure_heat_start s)._pen_sensor_ok = false →
      (measure_heat_start s)._actual_pen_temperature_mc = 0
    unfold measure_heat_start _start_dma_measure
    exact h
  | process => exact process_pen_invariant mem s h
  | hw e =>
    cases e with
    | write_idle raw => exact h
    | write_heat raw => exact h
    | transfer_complete => exact h

theorem run_pen_invariant (mem : IoSysmem) (ops : List Op) :
    ∀ s : Adc, (s._pen_sensor_ok = false → s._actual_pen_temperature_mc = 0) →
      (run mem s ops)._pen_sensor_ok = false → (run mem s ops)._actual_pen_temperature_mc = 0 := by
  induction ops with
  | nil =>
    intro s h
    exact h
  | cons op ops ih =>
    intro s h
    exact ih (step mem s op) (step_pen_invariant mem s op h)

/-- C16: in every state reached from an initial state (measure state `DONE`, all
readings 0, sensor flag false) by any sequence of `measure_idle_start`,
`measure_heat_start`, `process` and hardware events (stores into the raw
buffers, raising the transfer-complete flag), a false sensor flag comes with a
pen temperature reading of exactly 0. -/
theorem pen_fault_reads_zero (mem : IoSysmem) (s0 : Adc) (ops : List Op)
    (_hstate : s0._measure_state = State.DONE)
    (hreadings : readings s0 = (0, 0, 0, 0, 0, false)) :
    is_pen_sensor_ok (run mem s0 ops) = false → get_pen_temperature_mc (run mem s0 ops) = 0 := by
  have h0 : s0._actual_pen_temperature_mc = 0 := by
    have := congrArg (fun t => t.2.2.2.1) hreadings
    exact this
  exact run_pen_invariant mem ops s0 (fun _ => h0)

/-- Witness of C16: from the initial object, an idle cycle with a healthy code, a
heat cycle, then an idle cycle with the code 65001; the sensor flag is false and
the pen temperature reading is 0. -/
theorem pen_fault_reads_zero_witness :
    is_pen_sensor_ok (run sample_mem init
      [Op.measure_idle_start, Op.hw (HwEvent.write_idle sample_idle),
       Op.hw HwEvent.transfer_complete, Op.process,
       Op.measure_heat_start, Op.hw (HwEvent.write_heat sample_heat),
       Op.hw HwEvent.transfer_complete, Op.process,
       Op.measure_idle_start, Op.hw (HwEvent.write_idle sample_idle_fault),
       Op.hw HwEvent.transfer_complete, Op.process]) = false ∧
    get_pen_temperature_mc (run sample_mem init
      [Op.measure_idle_start, Op.hw (HwEvent.write_idle sample_idle),
       Op.hw HwEvent.transfer_complete, Op.process,
       Op.measure_heat_start, Op.hw (HwEvent.write_heat sample_heat),
       Op.hw HwEvent.transfer_complete, Op.process,
       Op.measure_idle_start, Op.hw (HwEvent.write_idle sample_idle_fault),
       Op.hw HwEvent.transfer_complete, Op.process]) = 0 :=
  ⟨by decide,
   pen_fault_reads_zero sample_mem init _ (by decide) (by decide) (by decide)⟩

theorem chselr_idle_value (s : Adc) : (measure_idle_start s).r_adc.CHSELR = 0x3000B := by
  have e : Chselr.set (Chselr.set (Chselr.set (Chselr.set (Chselr.set 0x00000000 0) 1) 3) 16) 17
      = 0x3000B := by decide
  rw [← e]
  unfold measure_idle_start _start_dma_measure
  rfl

theorem chselr_heat_value (s : Adc) : (measure_heat_start s).r_adc.CHSELR = 0x20009 := by
  have e : Chselr.set (Chselr.set (Chselr.set 0x00000000 0) 3) 17 = 0x20009 := by decide
  rw [← e]
  unfold measure_heat_start _start_dma_measure
  rfl

theorem testBit_0x3000B (n : Nat) :
    Nat.testBit 0x3000B n = true ↔ n = 0 ∨ n = 1 ∨ n = 3 ∨ n = 16 ∨ n = 17 := by
  by_cases h : n < 18
  · interval_cases n <;> decide
  · have h2 : Nat.testBit 0x3000B n = false :=
      Nat.testBit_lt_two_pow (Nat.lt_of_lt_of_le (by decide : 0x3000B < 2 ^ 18)
        (Nat.pow_le_pow_right (by decide) (by omega)))
    rw [h2]
    constructor
    · intro k
      exact absurd k (by decide)
    · intro k
      omega

theorem testBit_0x20009 (n : Nat) :
    Nat.testBit 0x20009 n = true ↔ n = 0 ∨ n = 3 ∨ n = 17 := by
  by_cases h : n < 18
  · interval_cases n <;> decide
  · have h2 : Nat.testBit 0x20009 n = false :=
      Nat.testBit_lt_two_pow (Nat.lt_of_lt_of_le (by decide : 0x20009 < 2 ^ 18)
        (Nat.pow_le_pow_right (by decide) (by omega)))
    rw [h2]
    constructor
    · intro k
      exact absurd k (by decide)
    · intro k
      omega

/-- C15: the channel-select mask each start writes matches its buffer. After
`measure_idle_start` exactly the bits `CHSEL0`, `CHSEL1`, `CHSEL3`, `CHSEL16`,
`CHSEL17` of `CHSELR` are set, after `measure_heat_start` exactly `CHSEL0`,
`CHSEL3`, `CHSEL17`, whatever the mask was before; the channels scanned are, in
ascending order, the channels of the buffer's fields in field order, and their
number is the DMA transfer count and the number of 16-bit fields of the buffer
(5 for idle, 3 for heat). -/
theorem chselr_matches_buffer (s : Adc) :
    (measure_idle_start s).r_adc.CHSELR = 2 ^ 0 + 2 ^ 1 + 2 ^ 3 + 2 ^ 16 + 2 ^ 17 ∧
    (∀ n : Nat, Nat.testBit (measure_idle_start s).r_adc.CHSELR n = true
      ↔ n = 0 ∨ n = 1 ∨ n = 3 ∨ n = 16 ∨ n = 17) ∧
    Chselr.channels (measure_idle_start s).r_adc.CHSELR = RawMeasuredIdle.channels ∧
    List.Pairwise (fun a b => a < b) RawMeasuredIdle.channels ∧
    (Chselr.channels (measure_idle_start s).r_adc.CHSELR).length
      = (measure_idle_start s).r_dma.CHANNEL.CNDTR ∧
    (measure_idle_start s).r_dma.CHANNEL.CNDTR = RAW_MEASURE_IDLE_ITEMS ∧
    RAW_MEASURE_IDLE_ITEMS = 5 ∧
    (measure_heat_start s).r_adc.CHSELR = 2 ^ 0 + 2 ^ 3 + 2 ^ 17 ∧
    (∀ n : Nat, Nat.testBit (measure_heat_start s).r_adc.CHSELR n = true
      ↔ n = 0 ∨ n = 3 ∨ n = 17) ∧
    Chselr.channels (measure_heat_start s).r_adc.CHSELR = RawMeasuredHeat.channels ∧
    List.Pairwise (fun a b => a < b) RawMeasuredHeat.channels ∧
    (Chselr.channels (measure_heat_start s).r_adc.CHSELR).length
      = (measure_heat_start s).r_dma.CHANNEL.CNDTR ∧
    (measure_heat_start s).r_dma.CHANNEL.CNDTR = RAW_MEASURE_HEAT_ITEMS ∧
    RAW_MEASURE_HEAT_ITEMS = 3 := by
  have ci : (measure_idle_start s).r_dma.CHANNEL.CNDTR = RAW_MEASURE_IDLE_ITEMS := by
    unfold measure_idle_start _start_dma_measure
    rfl
  have ch : (measure_heat_start s).r_dma.CHANNEL.CNDTR = RAW_MEASURE_HEAT_ITEMS := by
    unfold measure_heat_start _start_dma_measure
    rfl
  rw [chselr_idle_value, chselr_heat_value, ci, ch]
  refine ⟨by decide, testBit_0x3000B, by decide, by decide, by decide, rfl, by decide,
    by decide, testBit_0x20009, by decide, by decide, by decide, rfl, by decide⟩

end board
